import Mathlib

/-! # flutter_webgpu_rend: texture bridge, shallow embedding

The two platform variants of the bridge are embedded side by side:

* `Android`  : `android/src/main/cpp/webgpu_rend_android_api.cpp` (window-surface variant)
* `Windows`  : `windows/webgpu_rend_plugin.cpp` (shared-handle variant)

Conventions of the embedding.

* Pointers are natural numbers, `0` is `nullptr`.
* The process-wide globals of each translation unit are the fields of a `State` record;
  every exported function takes the state and returns the new state, its return value and
  the list of GPU / host calls it issued, in program order.
* Whatever an external collaborator answers (the Dawn library, the JNI host, D3D11, the
  Flutter texture registrar, `operator new`) is an argument of the function, packed in an
  `...Env` record.  Heap exhaustion inside `std::make_unique` is not modelled: the address
  of the new object is taken from the environment.
* Undefined behaviour that the source can reach through a null global (a call on a null
  `wgpu::Device`, a dereference of an empty `std::unique_ptr`, `std::map::at` on a missing
  key escaping through the C boundary) is an explicit `Fault`.
-/

namespace WebgpuRend

/-- Raw addresses; `0` plays the role of `nullptr`. -/
abbrev Ptr := Nat

/-- A `std::unique_ptr<T>`: either empty or owning one object. -/
abbrev UniquePtr (α : Type) := Option α

/-- The conversions `(uint32_t)x` and the implicit `int` to `uint32_t` assignments. -/
def toUint32 (x : Int) : Nat := (x % 4294967296).toNat

/-- Ways in which an exported function can leave defined behaviour. -/
inductive Fault where
  | nullDevice
  | nullInstance
  | nullUniquePtr
  | nullRegistrar
  | nullD3DDevice
  | outOfRange
deriving DecidableEq, Repr

/-- What a call of an exported function yields: new globals, return value, calls issued. -/
structure Outcome (σ κ ρ : Type) where
  state : σ
  ret : ρ
  calls : List κ
deriving DecidableEq, Repr

/-- The subset of `WGPUAdapterType` the source distinguishes. -/
inductive AdapterType where
  | DiscreteGPU
  | IntegratedGPU
  | CPU
  | Unknown
deriving DecidableEq, Repr

/-- A `dawn::native::Adapter` together with what `wgpuAdapterGetInfo` reports for it. -/
structure Adapter where
  handle : Ptr
  adapterType : AdapterType
deriving DecidableEq, Repr

/-- The values of `wgpu::SurfaceGetCurrentTextureStatus`; the source only tells the two
success values apart from all the others. -/
inductive SurfaceGetCurrentTextureStatus where
  | SuccessOptimal
  | SuccessSuboptimal
  | Timeout
  | Outdated
  | Lost
  | Error
deriving DecidableEq, Repr

/-- A `std::map` keyed by addresses. -/
abbrev StdMap (α : Type) := List (Ptr × α)

/-! ## `std::map<void*, V>` as an association list ordered by key -/

namespace StdMap

variable {α : Type}

/-- Lookup of a key (what `find` returns, `none` for `end()`). -/
def find : StdMap α → Ptr → Option α
  | [], _ => none
  | (k', v) :: rest, k => if k' = k then some v else find rest k

/-- The member `count(k)`: 1 when the key is present, 0 otherwise. -/
def count (m : StdMap α) (k : Ptr) : Nat :=
  match find m k with
  | some _ => 1
  | none => 0

/-- Ordered insertion of a key, replacing the value of a key that is already there. -/
def assign : StdMap α → Ptr → α → StdMap α
  | [], k, v => [(k, v)]
  | (k', v') :: rest, k, v =>
    if k = k' then (k, v) :: rest
    else if k < k' then (k, v) :: (k', v') :: rest
    else (k', v') :: assign rest k v

/-- The subscript `m[k]`: a missing key is first inserted with a value-initialised value
(`dflt`); the result is the map afterwards and the value referred to. -/
def index (m : StdMap α) (k : Ptr) (dflt : α) : StdMap α × α :=
  match find m k with
  | some v => (m, v)
  | none => (assign m k dflt, dflt)

/-- The member `at(k)`: throws `std::out_of_range` on a missing key. -/
def at_key (m : StdMap α) (k : Ptr) : Except Fault α :=
  match find m k with
  | some v => .ok v
  | none => .error Fault.outOfRange

/-- The member `erase(k)`. -/
def erase (m : StdMap α) (k : Ptr) : StdMap α :=
  m.filter (fun e => decide (e.1 ≠ k))

end StdMap

/-! ## Window-surface variant (`webgpu_rend_android_api.cpp`) -/

namespace Android

/-- The record `struct AndroidTextureObject`. -/
structure AndroidTextureObject where
  width : Int
  height : Int
  handle : Int
  flutter_texture_id : Int
  window : Ptr
  surface : Ptr
  working_texture : Ptr
  working_view : Ptr
deriving DecidableEq, Repr

/-- Calls into the JNI host, the NDK and Dawn, as the source issues them. -/
inductive Call where
  | hostCreateTexture (w h : Int)
  | hostGetTextureId (handle : Int)
  | hostGetSurface (handle : Int)
  | hostDisposeTexture (handle : Int)
  | ANativeWindow_fromSurface (jSurface : Ptr)
  | DeleteLocalRef (jSurface : Ptr)
  | ANativeWindow_release (window : Ptr)
  | InstanceCreate (inst : Ptr)
  | InstanceDestroy (inst : Ptr)
  | EnumerateAdapters (inst : Ptr)
  | AdapterCreateDevice (adapter : Ptr)
  | DeviceGetQueue (device : Ptr)
  | InstanceCreateSurface (inst window : Ptr)
  | SurfaceConfigure (surface device : Ptr) (width height : Nat)
  | DeviceCreateTexture (device : Ptr) (width height depth : Nat)
  | TextureCreateView (texture : Ptr)
  | SurfaceGetCurrentTexture (surface : Ptr)
  | DeviceCreateCommandEncoder (device : Ptr)
  | CopyTextureToTexture (encoder src dst : Ptr) (width height depth : Nat)
  | CommandEncoderFinish (encoder : Ptr)
  | QueueSubmit (queue : Ptr) (commands : List Ptr)
  | SurfacePresent (surface : Ptr)
  | TextureViewRelease (view : Ptr)
  | TextureRelease (texture : Ptr)
  | SurfaceRelease (surface : Ptr)
  | LOGE
deriving DecidableEq, Repr

/-- The globals `g_instance`, `g_device`, `g_queue`, `g_textures`. -/
structure State where
  g_instance : Ptr
  g_device : Ptr
  g_queue : Ptr
  g_textures : StdMap (UniquePtr AndroidTextureObject)
deriving DecidableEq, Repr

/-- The globals at load time. -/
def initial_state : State :=
  { g_instance := 0, g_device := 0, g_queue := 0, g_textures := [] }

/-- Answers of Dawn during one call of `webgpu_rend_init`. -/
structure InitEnv where
  new_instance : Ptr
  adapters : List Adapter
  createDevice : Adapter → Ptr
  queue : Ptr

/-- Answers of the allocator, the host and Dawn during one call of
`webgpu_rend_create_texture`. -/
structure CreateEnv where
  addr : Ptr
  host_handle : Int
  host_texture_id : Int
  jSurface : Ptr
  window : Ptr
  surface : Ptr
  working_texture : Ptr
  working_view : Ptr
deriving DecidableEq, Repr

/-- Answers of Dawn during one call of `webgpu_rend_present_texture`. -/
structure PresentEnv where
  status : SurfaceGetCurrentTextureStatus
  surface_texture : Ptr
  encoder : Ptr
  command_buffer : Ptr
deriving DecidableEq, Repr

/-- Result type of the exported functions. -/
abbrev Result (ρ : Type) := Except Fault (Outcome State Call ρ)

/-- The function `webgpu_rend_init` (lines 124-150). -/
def webgpu_rend_init (s : State) (env : InitEnv) : Result Ptr :=
  if s.g_device ≠ 0 then .ok ⟨s, s.g_device, []⟩
  else
    let s1 : State := { s with g_instance := env.new_instance }
    let c1 : List Call :=
      [Call.InstanceCreate env.new_instance] ++
      (if s.g_instance ≠ 0 then [Call.InstanceDestroy s.g_instance] else []) ++
      [Call.EnumerateAdapters env.new_instance]
    match env.adapters with
    | [] => .ok ⟨s1, 0, c1 ++ [Call.LOGE]⟩
    | adapter :: _ =>
      let cDevice := env.createDevice adapter
      -- g_device = Acquire(cDevice); g_queue = g_device.GetQueue(): no test of cDevice
      if cDevice = 0 then .error Fault.nullDevice
      else
        .ok ⟨{ s1 with g_device := cDevice, g_queue := env.queue }, cDevice,
             c1 ++ [Call.AdapterCreateDevice adapter.handle, Call.DeviceGetQueue cDevice]⟩

/-- The constructor `AndroidTextureObject(int w, int h)` (lines 54-95): the object built and
the calls made, given the globals it reads. -/
def AndroidTextureObject.construct (s : State) (env : CreateEnv) (w h : Int) :
    Except Fault (AndroidTextureObject × List Call) :=
  if s.g_instance = 0 then .error Fault.nullInstance
  else if s.g_device = 0 then .error Fault.nullDevice
  else
    .ok ({ width := w, height := h, handle := env.host_handle,
           flutter_texture_id := env.host_texture_id, window := env.window,
           surface := env.surface, working_texture := env.working_texture,
           working_view := env.working_view },
         [Call.hostCreateTexture w h,
          Call.hostGetTextureId env.host_handle,
          Call.hostGetSurface env.host_handle,
          Call.ANativeWindow_fromSurface env.jSurface,
          Call.DeleteLocalRef env.jSurface,
          Call.InstanceCreateSurface s.g_instance env.window,
          Call.SurfaceConfigure env.surface s.g_device (toUint32 w) (toUint32 h),
          Call.DeviceCreateTexture s.g_device (toUint32 w) (toUint32 h) 1,
          Call.TextureCreateView env.working_texture])

/-- The destructor `~AndroidTextureObject()` (lines 97-101) followed by the destruction of
the members in reverse order of declaration. -/
def AndroidTextureObject.destroy (obj : AndroidTextureObject) : List Call :=
  [Call.hostDisposeTexture obj.handle] ++
  (if obj.window ≠ 0 then [Call.ANativeWindow_release obj.window] else []) ++
  (if obj.working_view ≠ 0 then [Call.TextureViewRelease obj.working_view] else []) ++
  (if obj.working_texture ≠ 0 then [Call.TextureRelease obj.working_texture] else []) ++
  (if obj.surface ≠ 0 then [Call.SurfaceRelease obj.surface] else [])

/-- Destruction of a `std::unique_ptr<AndroidTextureObject>`. -/
def destroy_unique_ptr : UniquePtr AndroidTextureObject → List Call
  | some obj => obj.destroy
  | none => []

/-- Destruction of the value a map slot holds, if the slot exists. -/
def destroy_slot : Option (UniquePtr AndroidTextureObject) → List Call
  | some p => destroy_unique_ptr p
  | none => []

/-- The function `webgpu_rend_create_texture` (lines 152-164). -/
def webgpu_rend_create_texture (s : State) (env : CreateEnv) (width height : Int) :
    Result Ptr :=
  if s.g_device = 0 then .ok ⟨s, 0, []⟩
  else
    match AndroidTextureObject.construct s env width height with
    | .error f => .error f
    | .ok (tex, c) =>
      let ptr := env.addr
      .ok ⟨{ s with g_textures := StdMap.assign s.g_textures ptr (some tex) }, ptr,
           c ++ destroy_slot (StdMap.find s.g_textures ptr)⟩

/-- The function `webgpu_rend_get_texture_id` (lines 166-169). -/
def webgpu_rend_get_texture_id (s : State) (t : Ptr) : Result Int :=
  if StdMap.count s.g_textures t ≠ 0 then
    match StdMap.index s.g_textures t none with
    | (m, some obj) => .ok ⟨{ s with g_textures := m }, obj.flutter_texture_id, []⟩
    | (_, none) => .error Fault.nullUniquePtr
  else .ok ⟨s, -1, []⟩

/-- The function `webgpu_rend_get_wgpu_texture` (lines 171-174). -/
def webgpu_rend_get_wgpu_texture (s : State) (t : Ptr) : Result Ptr :=
  if StdMap.count s.g_textures t ≠ 0 then
    match StdMap.index s.g_textures t none with
    | (m, some obj) => .ok ⟨{ s with g_textures := m }, obj.working_texture, []⟩
    | (_, none) => .error Fault.nullUniquePtr
  else .ok ⟨s, 0, []⟩

/-- The function `webgpu_rend_get_wgpu_texture_view` (lines 176-179). -/
def webgpu_rend_get_wgpu_texture_view (s : State) (t : Ptr) : Result Ptr :=
  if StdMap.count s.g_textures t ≠ 0 then
    match StdMap.index s.g_textures t none with
    | (m, some obj) => .ok ⟨{ s with g_textures := m }, obj.working_view, []⟩
    | (_, none) => .error Fault.nullUniquePtr
  else .ok ⟨s, 0, []⟩

/-- The function `webgpu_rend_texture_begin_access` (line 181): an empty body. -/
def webgpu_rend_texture_begin_access (s : State) (_t : Ptr) : Result Unit :=
  .ok ⟨s, (), []⟩

/-- The function `webgpu_rend_texture_end_access` (line 182): an empty body. -/
def webgpu_rend_texture_end_access (s : State) (_t : Ptr) : Result Unit :=
  .ok ⟨s, (), []⟩

/-- The function `webgpu_rend_present_texture` (lines 184-214). -/
def webgpu_rend_present_texture (s : State) (env : PresentEnv) (t : Ptr) : Result Unit :=
  if StdMap.count s.g_textures t = 0 then .ok ⟨s, (), []⟩
  else
    match StdMap.index s.g_textures t none with
    | (_, none) => .error Fault.nullUniquePtr
    | (m, some obj) =>
      let s1 : State := { s with g_textures := m }
      if env.status ≠ SurfaceGetCurrentTextureStatus.SuccessOptimal ∧
         env.status ≠ SurfaceGetCurrentTextureStatus.SuccessSuboptimal then
        .ok ⟨s1, (), [Call.SurfaceGetCurrentTexture obj.surface, Call.LOGE]⟩
      else if s.g_device = 0 then .error Fault.nullDevice
      else
        .ok ⟨s1, (),
             [Call.SurfaceGetCurrentTexture obj.surface,
              Call.DeviceCreateCommandEncoder s.g_device,
              Call.CopyTextureToTexture env.encoder obj.working_texture env.surface_texture
                (toUint32 obj.width) (toUint32 obj.height) 1,
              Call.CommandEncoderFinish env.encoder,
              Call.QueueSubmit s.g_queue [env.command_buffer],
              Call.SurfacePresent obj.surface]⟩

/-- The function `webgpu_rend_dispose_texture` (lines 216-219). -/
def webgpu_rend_dispose_texture (s : State) (t : Ptr) : Result Unit :=
  .ok ⟨{ s with g_textures := StdMap.erase s.g_textures t }, (),
       destroy_slot (StdMap.find s.g_textures t)⟩

end Android

/-! ## Shared-handle variant (`webgpu_rend_plugin.cpp`) -/

namespace Windows

/-- What `wgpu::Device::ImportSharedTextureMemory` hands back.  Dawn does not throw and does
not return null: a failed import is reported to the device error callback and an error
object is returned; the source stores whichever object it gets. -/
inductive Imported where
  | valid (mem : Ptr)
  | error (mem : Ptr)
deriving DecidableEq, Repr

/-- The address of the object handed back. -/
def Imported.ptr : Imported → Ptr
  | .valid mem => mem
  | .error mem => mem

/-- The record `struct GpuTextureObject` (`webgpu_rend_plugin.h`), members in declaration
order. -/
structure GpuTextureObject where
  width : Int
  height : Int
  texture_id : Int
  texture_registrar : Ptr
  d3d_device : Ptr
  d3d_texture : Ptr
  texture_variant : Ptr
  surface_descriptor : Ptr
  shared_memory : Imported
  webgpu_texture : Ptr
  default_view : Ptr
deriving DecidableEq, Repr

/-- Calls into D3D11, the Flutter texture registrar and Dawn, as the source issues them. -/
inductive Call where
  | D3D11CreateDevice
  | CreateTexture2D (d3d_device : Ptr) (width height : Nat)
  | GetSharedHandle (d3d_texture : Ptr)
  | RegisterTexture (registrar variant : Ptr)
  | UnregisterTexture (registrar : Ptr) (texture_id : Int)
  | MarkTextureFrameAvailable (registrar : Ptr) (texture_id : Int)
  | InstanceCreate (inst : Ptr)
  | InstanceDestroy (inst : Ptr)
  | EnumerateAdapters (inst : Ptr)
  | AdapterGetInfo (adapter : Ptr)
  | AdapterCreateDevice (adapter : Ptr)
  | DeviceGetQueue (device : Ptr)
  | ImportSharedTextureMemory (device shared_handle : Ptr)
  | SharedTextureMemoryCreateTexture (mem : Ptr) (width height depth : Nat)
  | TextureCreateView (texture : Ptr)
  | BeginAccess (mem texture : Ptr)
  | EndAccess (mem texture : Ptr)
  | QueueSubmit (queue : Ptr) (commands : List Ptr)
  | TextureViewRelease (view : Ptr)
  | TextureRelease (texture : Ptr)
  | SharedTextureMemoryRelease (mem : Ptr)
  | SurfaceDescriptorDelete (descriptor : Ptr)
  | TextureVariantDelete (variant : Ptr)
  | D3DTextureRelease (d3d_texture : Ptr)
  | LogError
deriving DecidableEq, Repr

/-- The globals `g_d3d_device`, `g_texture_registrar`, `g_dawn_instance`, `g_wgpu_device`,
`g_wgpu_queue`, `g_textures`. -/
structure State where
  g_d3d_device : Ptr
  g_texture_registrar : Ptr
  g_dawn_instance : Ptr
  g_wgpu_device : Ptr
  g_wgpu_queue : Ptr
  g_textures : StdMap (UniquePtr GpuTextureObject)
deriving DecidableEq, Repr

/-- The globals at load time. -/
def initial_state : State :=
  { g_d3d_device := 0, g_texture_registrar := 0, g_dawn_instance := 0, g_wgpu_device := 0,
    g_wgpu_queue := 0, g_textures := [] }

/-- Answers of the host and D3D11 during `RegisterWithRegistrar`; a failed
`D3D11CreateDevice` leaves a null device. -/
structure RegisterEnv where
  texture_registrar : Ptr
  d3d_device : Ptr
deriving DecidableEq, Repr

/-- Answers of Dawn during one call of `webgpu_rend_init`. -/
structure InitEnv where
  new_instance : Ptr
  adapters : List Adapter
  createDevice : Adapter → Ptr
  queue : Ptr

/-- Answers of the allocator, D3D11, the texture registrar and Dawn during one call of
`webgpu_rend_create_texture`; `d3d_texture = none` is a failed `CreateTexture2D`. -/
structure CreateEnv where
  addr : Ptr
  d3d_texture : Option Ptr
  shared_handle : Ptr
  surface_descriptor : Ptr
  texture_variant : Ptr
  texture_id : Int
  shared_memory : Imported
  webgpu_texture : Ptr
  default_view : Ptr
deriving DecidableEq, Repr

/-- Result type of the exported functions. -/
abbrev Result (ρ : Type) := Except Fault (Outcome State Call ρ)

/-- The helper `InitializeD3D11` (lines 26-33). -/
def InitializeD3D11 (s : State) (env : RegisterEnv) : Outcome State Call Bool :=
  if s.g_d3d_device ≠ 0 then ⟨s, true, []⟩
  else ⟨{ s with g_d3d_device := env.d3d_device }, decide (env.d3d_device ≠ 0),
        [Call.D3D11CreateDevice]⟩

/-- The method `WebgpuRendPlugin::RegisterWithRegistrar` (lines 150-153). -/
def RegisterWithRegistrar (s : State) (env : RegisterEnv) : Result Unit :=
  let o := InitializeD3D11 { s with g_texture_registrar := env.texture_registrar } env
  .ok ⟨o.state, (), o.calls⟩

/-- The loop of lines 55-62: the adapter held in `chosenAdapter` when the loop ends, and
the `wgpuAdapterGetInfo` calls made on the way. -/
def chooseAdapterLoop (chosenAdapter : Adapter) : List Adapter → Adapter × List Call
  | [] => (chosenAdapter, [])
  | adapter :: rest =>
    if adapter.adapterType = AdapterType.DiscreteGPU then
      (adapter, [Call.AdapterGetInfo adapter.handle])
    else
      let r := chooseAdapterLoop chosenAdapter rest
      (r.1, Call.AdapterGetInfo adapter.handle :: r.2)

/-- The function `InitializeDawn` (lines 40-85). -/
def InitializeDawn (s : State) (env : InitEnv) : Outcome State Call Unit :=
  if s.g_wgpu_device ≠ 0 then ⟨s, (), []⟩
  else
    let s1 : State := { s with g_dawn_instance := env.new_instance }
    let c1 : List Call :=
      [Call.InstanceCreate env.new_instance] ++
      (if s.g_dawn_instance ≠ 0 then [Call.InstanceDestroy s.g_dawn_instance] else []) ++
      [Call.EnumerateAdapters env.new_instance]
    match env.adapters with
    | [] => ⟨s1, (), c1 ++ [Call.LogError]⟩
    | first :: rest =>
      let r := chooseAdapterLoop first (first :: rest)
      let chosenAdapter := r.1
      let cDevice := env.createDevice chosenAdapter
      let c2 := c1 ++ r.2 ++ [Call.AdapterCreateDevice chosenAdapter.handle]
      if cDevice = 0 then ⟨s1, (), c2 ++ [Call.LogError]⟩
      else
        ⟨{ s1 with g_wgpu_device := cDevice, g_wgpu_queue := env.queue }, (),
         c2 ++ [Call.DeviceGetQueue cDevice]⟩

/-- The function `webgpu_rend_init` (lines 164-167). -/
def webgpu_rend_init (s : State) (env : InitEnv) : Result Ptr :=
  let o := InitializeDawn s env
  .ok ⟨o.state, o.state.g_wgpu_device, o.calls⟩

/-- How a run of the constructor ends when it does not fault: by the
`throw std::runtime_error` of line 101 or with a built object. -/
inductive Constructed where
  | thrown (calls : List Call)
  | built (obj : GpuTextureObject) (calls : List Call)
deriving DecidableEq, Repr

/-- The constructor `GpuTextureObject::GpuTextureObject` (lines 87-144), called with the
globals `*g_texture_registrar`, `g_d3d_device`, `g_wgpu_device` as in line 173. -/
def GpuTextureObject.construct (s : State) (env : CreateEnv) (w h : Int) :
    Except Fault Constructed :=
  if s.g_texture_registrar = 0 then .error Fault.nullRegistrar
  else if s.g_d3d_device = 0 then .error Fault.nullD3DDevice
  else
    let c0 := [Call.CreateTexture2D s.g_d3d_device (toUint32 w) (toUint32 h)]
    match env.d3d_texture with
    | none => .ok (Constructed.thrown c0)
    | some d3d_texture =>
      if s.g_wgpu_device = 0 then .error Fault.nullDevice
      else
        .ok (Constructed.built
          { width := w, height := h, texture_id := env.texture_id,
            texture_registrar := s.g_texture_registrar, d3d_device := s.g_d3d_device,
            d3d_texture := d3d_texture, texture_variant := env.texture_variant,
            surface_descriptor := env.surface_descriptor,
            shared_memory := env.shared_memory, webgpu_texture := env.webgpu_texture,
            default_view := env.default_view }
          (c0 ++
           [Call.GetSharedHandle d3d_texture,
            Call.RegisterTexture s.g_texture_registrar env.texture_variant,
            Call.ImportSharedTextureMemory s.g_wgpu_device env.shared_handle,
            Call.SharedTextureMemoryCreateTexture env.shared_memory.ptr
              (toUint32 w) (toUint32 h) 1,
            Call.TextureCreateView env.webgpu_texture]))

/-- The destructor `GpuTextureObject::~GpuTextureObject` (lines 146-148) followed by the
destruction of the members in reverse order of declaration (the reference count of the
shared `ID3D11Device` is not tracked). -/
def GpuTextureObject.destroy (obj : GpuTextureObject) : List Call :=
  [Call.UnregisterTexture obj.texture_registrar obj.texture_id] ++
  (if obj.default_view ≠ 0 then [Call.TextureViewRelease obj.default_view] else []) ++
  (if obj.webgpu_texture ≠ 0 then [Call.TextureRelease obj.webgpu_texture] else []) ++
  (if obj.shared_memory.ptr ≠ 0 then
     [Call.SharedTextureMemoryRelease obj.shared_memory.ptr] else []) ++
  (if obj.surface_descriptor ≠ 0 then
     [Call.SurfaceDescriptorDelete obj.surface_descriptor] else []) ++
  (if obj.texture_variant ≠ 0 then [Call.TextureVariantDelete obj.texture_variant] else []) ++
  (if obj.d3d_texture ≠ 0 then [Call.D3DTextureRelease obj.d3d_texture] else [])

/-- Destruction of a `std::unique_ptr<GpuTextureObject>`. -/
def destroy_unique_ptr : UniquePtr GpuTextureObject → List Call
  | some obj => obj.destroy
  | none => []

/-- Destruction of the value a map slot holds, if the slot exists. -/
def destroy_slot : Option (UniquePtr GpuTextureObject) → List Call
  | some p => destroy_unique_ptr p
  | none => []

/-- The function `webgpu_rend_create_texture` (lines 169-180). -/
def webgpu_rend_create_texture (s : State) (env : CreateEnv) (width height : Int) :
    Result Ptr :=
  if s.g_wgpu_device = 0 then .ok ⟨s, 0, []⟩
  else
    match GpuTextureObject.construct s env width height with
    | .error f => .error f
    | .ok (Constructed.thrown c) => .ok ⟨s, 0, c⟩
    | .ok (Constructed.built tex c) =>
      let handle := env.addr
      .ok ⟨{ s with g_textures := StdMap.assign s.g_textures handle (some tex) }, handle,
           c ++ destroy_slot (StdMap.find s.g_textures handle)⟩

/-- The expression `g_textures.at(t)->` of lines 184-223: the object referred to. -/
def at_deref (s : State) (t : Ptr) : Except Fault GpuTextureObject :=
  match StdMap.at_key s.g_textures t with
  | .error f => .error f
  | .ok none => .error Fault.nullUniquePtr
  | .ok (some obj) => .ok obj

/-- The function `webgpu_rend_get_texture_id` (lines 182-185). -/
def webgpu_rend_get_texture_id (s : State) (t : Ptr) : Result Int :=
  if StdMap.count s.g_textures t ≠ 0 then
    match at_deref s t with
    | .error f => .error f
    | .ok obj => .ok ⟨s, obj.texture_id, []⟩
  else .ok ⟨s, -1, []⟩

/-- The function `webgpu_rend_get_wgpu_texture` (lines 187-190). -/
def webgpu_rend_get_wgpu_texture (s : State) (t : Ptr) : Result Ptr :=
  if StdMap.count s.g_textures t ≠ 0 then
    match at_deref s t with
    | .error f => .error f
    | .ok obj => .ok ⟨s, obj.webgpu_texture, []⟩
  else .ok ⟨s, 0, []⟩

/-- The function `webgpu_rend_get_wgpu_texture_view` (lines 192-195). -/
def webgpu_rend_get_wgpu_texture_view (s : State) (t : Ptr) : Result Ptr :=
  if StdMap.count s.g_textures t ≠ 0 then
    match at_deref s t with
    | .error f => .error f
    | .ok obj => .ok ⟨s, obj.default_view, []⟩
  else .ok ⟨s, 0, []⟩

/-- The function `webgpu_rend_texture_begin_access` (lines 197-207). -/
def webgpu_rend_texture_begin_access (s : State) (t : Ptr) : Result Unit :=
  if StdMap.count s.g_textures t = 0 then .ok ⟨s, (), []⟩
  else
    match at_deref s t with
    | .error f => .error f
    | .ok tex => .ok ⟨s, (), [Call.BeginAccess tex.shared_memory.ptr tex.webgpu_texture]⟩

/-- The function `webgpu_rend_texture_end_access` (lines 209-216). -/
def webgpu_rend_texture_end_access (s : State) (t : Ptr) : Result Unit :=
  if StdMap.count s.g_textures t = 0 then .ok ⟨s, (), []⟩
  else
    match at_deref s t with
    | .error f => .error f
    | .ok tex => .ok ⟨s, (), [Call.EndAccess tex.shared_memory.ptr tex.webgpu_texture]⟩

/-- The function `webgpu_rend_present_texture` (lines 218-224). -/
def webgpu_rend_present_texture (s : State) (t : Ptr) : Result Unit :=
  if StdMap.count s.g_textures t = 0 then .ok ⟨s, (), []⟩
  else
    match at_deref s t with
    | .error f => .error f
    | .ok obj =>
      .ok ⟨s, (),
           [Call.QueueSubmit s.g_wgpu_queue [],
            Call.MarkTextureFrameAvailable obj.texture_registrar obj.texture_id]⟩

/-- The function `webgpu_rend_dispose_texture` (lines 226-229). -/
def webgpu_rend_dispose_texture (s : State) (t : Ptr) : Result Unit :=
  .ok ⟨{ s with g_textures := StdMap.erase s.g_textures t }, (),
       destroy_slot (StdMap.find s.g_textures t)⟩

end Windows

/-! ## Sequences of exported calls -/

namespace Android

/-- The function `webgpu_rend_get_proc_address` (lines 116-122): a lookup in the Dawn
procedure table, whose answer is `proc`. -/
def webgpu_rend_get_proc_address (s : State) (proc : Ptr) : Result Ptr :=
  .ok ⟨s, proc, []⟩

/-- One call of an exported function, with the answers of the environment. -/
inductive Op where
  | get_proc_address (proc : Ptr)
  | init (env : InitEnv)
  | create_texture (env : CreateEnv) (width height : Int)
  | get_texture_id (t : Ptr)
  | get_wgpu_texture (t : Ptr)
  | get_wgpu_texture_view (t : Ptr)
  | texture_begin_access (t : Ptr)
  | texture_end_access (t : Ptr)
  | present_texture (env : PresentEnv) (t : Ptr)
  | dispose_texture (t : Ptr)

/-- The globals after a call and the calls it issued, return value dropped. -/
def effect {ρ : Type} : Result ρ → Except Fault (State × List Call)
  | .ok o => .ok (o.state, o.calls)
  | .error f => .error f

/-- Execution of one exported call. -/
def run (s : State) : Op → Except Fault (State × List Call)
  | .get_proc_address proc => effect (webgpu_rend_get_proc_address s proc)
  | .init env => effect (webgpu_rend_init s env)
  | .create_texture env width height => effect (webgpu_rend_create_texture s env width height)
  | .get_texture_id t => effect (webgpu_rend_get_texture_id s t)
  | .get_wgpu_texture t => effect (webgpu_rend_get_wgpu_texture s t)
  | .get_wgpu_texture_view t => effect (webgpu_rend_get_wgpu_texture_view s t)
  | .texture_begin_access t => effect (webgpu_rend_texture_begin_access s t)
  | .texture_end_access t => effect (webgpu_rend_texture_end_access s t)
  | .present_texture env t => effect (webgpu_rend_present_texture s env t)
  | .dispose_texture t => effect (webgpu_rend_dispose_texture s t)

/-- The one thing assumed of the environment along a run: `operator new` (inside
`std::make_unique`) does not return null. -/
def Op.env_ok : Op → Prop
  | .init env => env.new_instance ≠ 0
  | .create_texture env _ _ => env.addr ≠ 0
  | _ => True

/-- States the globals can be in: the load-time state and whatever a call that stays within
defined behaviour leaves. -/
inductive Reachable : State → Prop where
  | initial : Reachable initial_state
  | call {s s1 : State} {calls : List Call} (op : Op) :
      Reachable s → op.env_ok → run s op = .ok (s1, calls) → Reachable s1

end Android

namespace Windows

/-- The function `webgpu_rend_get_proc_address` (lines 157-162): a lookup in the Dawn
procedure table, whose answer is `proc`. -/
def webgpu_rend_get_proc_address (s : State) (proc : Ptr) : Result Ptr :=
  .ok ⟨s, proc, []⟩

/-- One call of an exported function or of the plugin registration, with the answers of
the environment. -/
inductive Op where
  | register_with_registrar (env : RegisterEnv)
  | get_proc_address (proc : Ptr)
  | init (env : InitEnv)
  | create_texture (env : CreateEnv) (width height : Int)
  | get_texture_id (t : Ptr)
  | get_wgpu_texture (t : Ptr)
  | get_wgpu_texture_view (t : Ptr)
  | texture_begin_access (t : Ptr)
  | texture_end_access (t : Ptr)
  | present_texture (t : Ptr)
  | dispose_texture (t : Ptr)

/-- The globals after a call and the calls it issued, return value dropped. -/
def effect {ρ : Type} : Result ρ → Except Fault (State × List Call)
  | .ok o => .ok (o.state, o.calls)
  | .error f => .error f

/-- Execution of one call. -/
def run (s : State) : Op → Except Fault (State × List Call)
  | .register_with_registrar env => effect (RegisterWithRegistrar s env)
  | .get_proc_address proc => effect (webgpu_rend_get_proc_address s proc)
  | .init env => effect (webgpu_rend_init s env)
  | .create_texture env width height => effect (webgpu_rend_create_texture s env width height)
  | .get_texture_id t => effect (webgpu_rend_get_texture_id s t)
  | .get_wgpu_texture t => effect (webgpu_rend_get_wgpu_texture s t)
  | .get_wgpu_texture_view t => effect (webgpu_rend_get_wgpu_texture_view s t)
  | .texture_begin_access t => effect (webgpu_rend_texture_begin_access s t)
  | .texture_end_access t => effect (webgpu_rend_texture_end_access s t)
  | .present_texture t => effect (webgpu_rend_present_texture s t)
  | .dispose_texture t => effect (webgpu_rend_dispose_texture s t)

/-- The one thing assumed of the environment along a run: `operator new` (inside
`std::make_unique`) does not return null. -/
def Op.env_ok : Op → Prop
  | .init env => env.new_instance ≠ 0
  | .create_texture env _ _ => env.addr ≠ 0
  | _ => True

/-- States the globals can be in: the load-time state and whatever a call that stays within
defined behaviour leaves. -/
inductive Reachable : State → Prop where
  | initial : Reachable initial_state
  | call {s s1 : State} {calls : List Call} (op : Op) :
      Reachable s → op.env_ok → run s op = .ok (s1, calls) → Reachable s1

end Windows

/-! ## Auxiliary notions: invariants, built objects, the selection policy as specified -/

namespace Android

/-- Without a device the registry is empty, and a device never exists without the instance
it was created from. -/
def Inv (s : State) : Prop :=
  (s.g_device = 0 → s.g_textures = []) ∧ (s.g_device ≠ 0 → s.g_instance ≠ 0)

end Android

namespace Windows

/-- Without a device the registry is empty. -/
def Inv (s : State) : Prop := s.g_wgpu_device = 0 → s.g_textures = []

end Windows

/-- The selection policy in the words of the specification, "prefer discrete, else first":
the first adapter in enumeration order whose type is `DiscreteGPU` if the list has one,
otherwise the first adapter of the list. -/
def prefer_discrete_else_first (adapters : List Adapter) : Option Adapter :=
  match adapters.find? (fun a => decide (a.adapterType = AdapterType.DiscreteGPU)) with
  | some a => some a
  | none => adapters.head?

/-! ## Kinds of calls issued by a disposal -/

namespace Android

/-- Whether a call is the host-side unregistration, `disposeTexture` of the host. -/
def Call.is_host_unregistration : Call → Bool
  | .hostDisposeTexture _ => true
  | _ => false

/-- Whether a call releases a native resource a texture object owns: its native window,
its GPU texture view, its GPU texture, its surface. -/
def Call.is_native_release : Call → Bool
  | .ANativeWindow_release _ => true
  | .TextureViewRelease _ => true
  | .TextureRelease _ => true
  | .SurfaceRelease _ => true
  | _ => false

end Android

namespace Windows

/-- Whether a call is the host-side unregistration, `UnregisterTexture` of the texture
registrar. -/
def Call.is_host_unregistration : Call → Bool
  | .UnregisterTexture _ _ => true
  | _ => false

/-- Whether a call releases a native resource a texture object owns: its GPU texture view,
its GPU texture, its shared-memory import, the surface descriptor and the texture variant
handed to the host, its native D3D11 texture. -/
def Call.is_native_release : Call → Bool
  | .TextureViewRelease _ => true
  | .TextureRelease _ => true
  | .SharedTextureMemoryRelease _ => true
  | .SurfaceDescriptorDelete _ => true
  | .TextureVariantDelete _ => true
  | .D3DTextureRelease _ => true
  | _ => false

end Windows

/-! ## Two threads inside `webgpu_rend_init`

Each call of `webgpu_rend_init` is cut at the points where it reads or writes a global; a
schedule says which thread moves next.  `std::lock_guard<std::mutex> lock(g_mutex)` is the
first step of the window-surface function and blocks while the other thread holds the
mutex; the shared-handle function has no such statement. -/

/-- The two calling threads. -/
inductive Thread where
  | T1
  | T2
deriving DecidableEq, Repr

/-- Where a thread stands inside one call of `webgpu_rend_init`. -/
inductive InitPc where
  | entry
  | test_device
  | create
  | assign (cDevice : Ptr)
  | get_queue
  | finish
  | returned (ret : Ptr)
  | faulted
deriving DecidableEq, Repr

/-- The globals, the holder of `g_mutex`, the position of either thread and the calls
issued so far. -/
structure World (σ κ : Type) where
  g : σ
  mutex : Option Thread
  pc1 : InitPc
  pc2 : InitPc
  calls : List κ
deriving DecidableEq, Repr

/-- What one step of one thread yields. -/
structure StepResult (σ κ : Type) where
  g : σ
  mutex : Option Thread
  pc : InitPc
  calls : List κ

namespace Android

/-- One step of thread `me` inside `webgpu_rend_init` (lines 124-150). -/
def init_step (env : InitEnv) (me : Thread) (g : State) (mutex : Option Thread) :
    InitPc → StepResult State Call
  | .entry =>
    -- std::lock_guard<std::mutex> lock(g_mutex);
    match mutex with
    | none => ⟨g, some me, .test_device, []⟩
    | some holder => ⟨g, some holder, .entry, []⟩
  | .test_device =>
    -- if (g_device) return g_device.Get();
    if g.g_device ≠ 0 then ⟨g, none, .returned g.g_device, []⟩
    else ⟨g, mutex, .create, []⟩
  | .create =>
    let g1 : State := { g with g_instance := env.new_instance }
    let c1 : List Call :=
      [Call.InstanceCreate env.new_instance] ++
      (if g.g_instance ≠ 0 then [Call.InstanceDestroy g.g_instance] else []) ++
      [Call.EnumerateAdapters env.new_instance]
    match env.adapters with
    | [] => ⟨g1, none, .returned 0, c1 ++ [Call.LOGE]⟩
    | adapter :: _ =>
      ⟨g1, mutex, .assign (env.createDevice adapter),
       c1 ++ [Call.AdapterCreateDevice adapter.handle]⟩
  | .assign cDevice =>
    -- g_device = wgpu::Device::Acquire(cDevice);
    ⟨{ g with g_device := cDevice }, mutex, .get_queue, []⟩
  | .get_queue =>
    -- g_queue = g_device.GetQueue();
    if g.g_device = 0 then ⟨g, mutex, .faulted, []⟩
    else ⟨{ g with g_queue := env.queue }, mutex, .finish, [Call.DeviceGetQueue g.g_device]⟩
  | .finish =>
    -- return g_device.Get();  (the guard releases the mutex)
    ⟨g, none, .returned g.g_device, []⟩
  | .returned ret => ⟨g, mutex, .returned ret, []⟩
  | .faulted => ⟨g, mutex, .faulted, []⟩

/-- One step of the thread the scheduler picks; thread 1 runs under `e1`, thread 2 under
`e2`. -/
def sched_step (e1 e2 : InitEnv) (w : World State Call) : Thread → World State Call
  | .T1 =>
    let r := init_step e1 Thread.T1 w.g w.mutex w.pc1
    ⟨r.g, r.mutex, r.pc, w.pc2, w.calls ++ r.calls⟩
  | .T2 =>
    let r := init_step e2 Thread.T2 w.g w.mutex w.pc2
    ⟨r.g, r.mutex, w.pc1, r.pc, w.calls ++ r.calls⟩

/-- Two calls of `webgpu_rend_init` entered from state `s`, run along a schedule. -/
def run_schedule (e1 e2 : InitEnv) (s : State) (schedule : List Thread) : World State Call :=
  schedule.foldl (sched_step e1 e2) ⟨s, none, .entry, .entry, []⟩

/-- One thread alone, run to completion. -/
def run_alone (env : InitEnv) (s : State) : World State Call :=
  run_schedule env env s [Thread.T1, Thread.T1, Thread.T1, Thread.T1, Thread.T1, Thread.T1]

/-- Whether a call is a `CreateDevice` on an adapter. -/
def Call.is_create_device : Call → Bool
  | .AdapterCreateDevice _ => true
  | _ => false

/-- Whether a thread at this position is inside the body that `g_mutex` guards. -/
def inside : InitPc → Bool
  | .entry => false
  | .returned _ => false
  | _ => true

/-- Whether a thread at this position has asked for a device whose fate is still open (not
yet stored, or stored while null). -/
def pending : InitPc → Bool
  | .assign _ => true
  | .get_queue => true
  | .faulted => true
  | _ => false

/-- What holds of every world two calls of the window-surface `webgpu_rend_init` can reach
from a state without a device: the holder of the mutex is the one thread inside, the device
global is only written while it is null, returned handles are null or the device global,
and at most one `CreateDevice` has been issued. -/
structure MutexInv (w : World State Call) : Prop where
  free : w.mutex = none → inside w.pc1 = false ∧ inside w.pc2 = false
  held1 : w.mutex = some Thread.T1 → inside w.pc1 = true ∧ inside w.pc2 = false
  held2 : w.mutex = some Thread.T2 → inside w.pc2 = true ∧ inside w.pc1 = false
  create_dev : (w.pc1 = InitPc.create ∨ w.pc2 = InitPc.create) → w.g.g_device = 0
  assign_dev : ∀ c, (w.pc1 = InitPc.assign c ∨ w.pc2 = InitPc.assign c) → w.g.g_device = 0
  finish_dev : (w.pc1 = InitPc.finish ∨ w.pc2 = InitPc.finish) → w.g.g_device ≠ 0
  ret : ∀ r, (w.pc1 = InitPc.returned r ∨ w.pc2 = InitPc.returned r) →
    r = 0 ∨ r = w.g.g_device
  count_le : w.calls.countP Call.is_create_device ≤ 1
  count_one : w.calls.countP Call.is_create_device = 1 →
    w.g.g_device ≠ 0 ∨ pending w.pc1 = true ∨ pending w.pc2 = true

end Android

namespace Windows

/-- One step of a thread inside `webgpu_rend_init` and `InitializeDawn` (lines 164-167 and
40-85); the function takes no lock. -/
def init_step (env : InitEnv) (_me : Thread) (g : State) (mutex : Option Thread) :
    InitPc → StepResult State Call
  | .entry =>
    -- if (g_wgpu_device) return;
    if g.g_wgpu_device ≠ 0 then ⟨g, mutex, .finish, []⟩
    else ⟨g, mutex, .create, []⟩
  | .test_device => ⟨g, mutex, .test_device, []⟩
  | .create =>
    let g1 : State := { g with g_dawn_instance := env.new_instance }
    let c1 : List Call :=
      [Call.InstanceCreate env.new_instance] ++
      (if g.g_dawn_instance ≠ 0 then [Call.InstanceDestroy g.g_dawn_instance] else []) ++
      [Call.EnumerateAdapters env.new_instance]
    match env.adapters with
    | [] => ⟨g1, mutex, .finish, c1 ++ [Call.LogError]⟩
    | first :: rest =>
      let r := chooseAdapterLoop first (first :: rest)
      let chosenAdapter := r.1
      let cDevice := env.createDevice chosenAdapter
      let c2 := c1 ++ r.2 ++ [Call.AdapterCreateDevice chosenAdapter.handle]
      if cDevice = 0 then ⟨g1, mutex, .finish, c2 ++ [Call.LogError]⟩
      else ⟨g1, mutex, .assign cDevice, c2⟩
  | .assign cDevice =>
    -- g_wgpu_device = wgpu::Device::Acquire(cDevice);
    ⟨{ g with g_wgpu_device := cDevice }, mutex, .get_queue, []⟩
  | .get_queue =>
    -- g_wgpu_queue = g_wgpu_device.GetQueue();
    ⟨{ g with g_wgpu_queue := env.queue }, mutex, .finish,
     [Call.DeviceGetQueue g.g_wgpu_device]⟩
  | .finish =>
    -- return g_wgpu_device.Get();
    ⟨g, mutex, .returned g.g_wgpu_device, []⟩
  | .returned ret => ⟨g, mutex, .returned ret, []⟩
  | .faulted => ⟨g, mutex, .faulted, []⟩

/-- One step of the thread the scheduler picks; thread 1 runs under `e1`, thread 2 under
`e2`. -/
def sched_step (e1 e2 : InitEnv) (w : World State Call) : Thread → World State Call
  | .T1 =>
    let r := init_step e1 Thread.T1 w.g w.mutex w.pc1
    ⟨r.g, r.mutex, r.pc, w.pc2, w.calls ++ r.calls⟩
  | .T2 =>
    let r := init_step e2 Thread.T2 w.g w.mutex w.pc2
    ⟨r.g, r.mutex, w.pc1, r.pc, w.calls ++ r.calls⟩

/-- Two calls of `webgpu_rend_init` entered from state `s`, run along a schedule. -/
def run_schedule (e1 e2 : InitEnv) (s : State) (schedule : List Thread) : World State Call :=
  schedule.foldl (sched_step e1 e2) ⟨s, none, .entry, .entry, []⟩

/-- One thread alone, run to completion. -/
def run_alone (env : InitEnv) (s : State) : World State Call :=
  run_schedule env env s [Thread.T1, Thread.T1, Thread.T1, Thread.T1, Thread.T1]

end Windows

/-! ## Sample answers of the environment and sample states -/

namespace Android

/-- A first initialisation that finds one adapter and gets a device. -/
def sample_init_env : InitEnv :=
  { new_instance := 4096, adapters := [⟨1, AdapterType.IntegratedGPU⟩],
    createDevice := fun _ => 8192, queue := 8200 }

/-- A texture creation whose object lands at address 16384 and gets host id 7. -/
def sample_create_env : CreateEnv :=
  { addr := 16384, host_handle := 1, host_texture_id := 7, jSurface := 300, window := 400,
    surface := 500, working_texture := 600, working_view := 700 }

/-- A second texture creation: address 20480, host id 8. -/
def sample_create_env2 : CreateEnv :=
  { addr := 20480, host_handle := 2, host_texture_id := 8, jSurface := 301, window := 401,
    surface := 501, working_texture := 601, working_view := 701 }

/-- The globals after `sample_init_env`. -/
def sample_state0 : State :=
  { g_instance := 4096, g_device := 8192, g_queue := 8200, g_textures := [] }

/-- The object built by a 256x256 creation under `sample_create_env`. -/
def sample_object : AndroidTextureObject :=
  { width := 256, height := 256, handle := 1, flutter_texture_id := 7, window := 400,
    surface := 500, working_texture := 600, working_view := 700 }

/-- The object built by a 64x32 creation under `sample_create_env2`. -/
def sample_object2 : AndroidTextureObject :=
  { width := 64, height := 32, handle := 2, flutter_texture_id := 8, window := 401,
    surface := 501, working_texture := 601, working_view := 701 }

/-- The globals after initialisation and one 256x256 creation. -/
def sample_state1 : State :=
  { sample_state0 with g_textures := [(16384, some sample_object)] }

/-- The globals after initialisation and two creations. -/
def sample_state2 : State :=
  { sample_state0 with g_textures := [(16384, some sample_object), (20480, some sample_object2)] }

/-- An initialisation that would create another device, 12288, from another adapter. -/
def other_init_env : InitEnv :=
  { new_instance := 4100, adapters := [⟨3, AdapterType.DiscreteGPU⟩],
    createDevice := fun _ => 12288, queue := 12296 }

/-- An initialisation that finds one adapter whose device creation fails. -/
def device_failure_env : InitEnv :=
  { new_instance := 4096, adapters := [⟨1, AdapterType.IntegratedGPU⟩],
    createDevice := fun _ => 0, queue := 0 }

/-- The globals after an initialisation that found no adapter. -/
def sample_state_failed_init : State := { initial_state with g_instance := 4096 }

end Android

namespace Windows

/-- A plugin registration that gets a registrar and a D3D11 device. -/
def sample_register_env : RegisterEnv := { texture_registrar := 900, d3d_device := 1000 }

/-- A first initialisation that finds an integrated and a discrete adapter. -/
def sample_init_env : InitEnv :=
  { new_instance := 4096,
    adapters := [⟨1, AdapterType.IntegratedGPU⟩, ⟨2, AdapterType.DiscreteGPU⟩],
    createDevice := fun a => 8192 + a.handle, queue := 8200 }

/-- A texture creation in which every step succeeds: address 16384, host id 7. -/
def sample_create_env : CreateEnv :=
  { addr := 16384, d3d_texture := some 300, shared_handle := 350, surface_descriptor := 400,
    texture_variant := 450, texture_id := 7, shared_memory := Imported.valid 500,
    webgpu_texture := 600, default_view := 700 }

/-- A second texture creation in which every step succeeds: address 20480, host id 8. -/
def sample_create_env2 : CreateEnv :=
  { addr := 20480, d3d_texture := some 301, shared_handle := 351, surface_descriptor := 401,
    texture_variant := 451, texture_id := 8, shared_memory := Imported.valid 501,
    webgpu_texture := 601, default_view := 701 }

/-- The globals after `sample_register_env`. -/
def sample_state_registered : State :=
  { initial_state with g_d3d_device := 1000, g_texture_registrar := 900 }

/-- The globals after registration and `sample_init_env`. -/
def sample_state0 : State :=
  { g_d3d_device := 1000, g_texture_registrar := 900, g_dawn_instance := 4096,
    g_wgpu_device := 8194, g_wgpu_queue := 8200, g_textures := [] }

/-- The object built by a 256x256 creation under `sample_create_env`. -/
def sample_object : GpuTextureObject :=
  { width := 256, height := 256, texture_id := 7, texture_registrar := 900,
    d3d_device := 1000, d3d_texture := 300, texture_variant := 450,
    surface_descriptor := 400, shared_memory := Imported.valid 500, webgpu_texture := 600,
    default_view := 700 }

/-- The object built by a 64x32 creation under `sample_create_env2`. -/
def sample_object2 : GpuTextureObject :=
  { width := 64, height := 32, texture_id := 8, texture_registrar := 900,
    d3d_device := 1000, d3d_texture := 301, texture_variant := 451,
    surface_descriptor := 401, shared_memory := Imported.valid 501, webgpu_texture := 601,
    default_view := 701 }

/-- The globals after registration, initialisation and one 256x256 creation. -/
def sample_state1 : State :=
  { sample_state0 with g_textures := [(16384, some sample_object)] }

/-- The globals after registration, initialisation and two creations. -/
def sample_state2 : State :=
  { sample_state0 with g_textures := [(16384, some sample_object), (20480, some sample_object2)] }

/-- The answers of `sample_create_env`, except that the shared-memory import fails and Dawn
hands back an error object. -/
def import_failure_env : CreateEnv :=
  { sample_create_env with shared_memory := Imported.error 500 }

/-- An initialisation that would create another device, 12288, from another adapter. -/
def other_init_env : InitEnv :=
  { new_instance := 4100, adapters := [⟨3, AdapterType.DiscreteGPU⟩],
    createDevice := fun _ => 12288, queue := 12296 }

end Windows

/-- A schedule in which both threads get past the first statement of `webgpu_rend_init`
before either has stored a device, and then both run to completion. -/
def racing_schedule : List Thread :=
  [Thread.T1, Thread.T2, Thread.T1, Thread.T2, Thread.T1, Thread.T1, Thread.T1,
   Thread.T2, Thread.T2, Thread.T2, Thread.T1, Thread.T2, Thread.T2]

/-! # Theorems -/

/-! ## Facts about the map operations -/

namespace StdMap

variable {α : Type}

theorem count_eq_zero_iff (m : StdMap α) (k : Ptr) : count m k = 0 ↔ find m k = none := by
  unfold count
  cases find m k <;> simp

theorem count_of_find_some {m : StdMap α} {k : Ptr} {v : α} (h : find m k = some v) :
    count m k = 1 := by
  unfold count
  rw [h]

theorem index_of_find_some {m : StdMap α} {k : Ptr} {v : α} (h : find m k = some v)
    (dflt : α) : index m k dflt = (m, v) := by
  unfold index
  rw [h]

theorem at_key_of_find_some {m : StdMap α} {k : Ptr} {v : α} (h : find m k = some v) :
    at_key m k = .ok v := by
  unfold at_key
  rw [h]

theorem erase_cons (k1 : Ptr) (v1 : α) (rest : StdMap α) (k : Ptr) :
    erase ((k1, v1) :: rest) k = if k1 = k then erase rest k else (k1, v1) :: erase rest k := by
  by_cases hk : k1 = k <;> simp [erase, List.filter, hk]

theorem find_cons (k1 : Ptr) (v1 : α) (rest : StdMap α) (k : Ptr) :
    find ((k1, v1) :: rest) k = if k1 = k then some v1 else find rest k := rfl

theorem find_erase_self (m : StdMap α) (k : Ptr) : find (erase m k) k = none := by
  induction m with
  | nil => rfl
  | cons e rest ih =>
    obtain ⟨k1, v1⟩ := e
    rw [erase_cons]
    by_cases hk : k1 = k
    · rw [if_pos hk]; exact ih
    · rw [if_neg hk, find_cons, if_neg hk]; exact ih

theorem find_erase_other (m : StdMap α) {k k2 : Ptr} (hne : k2 ≠ k) :
    find (erase m k) k2 = find m k2 := by
  induction m with
  | nil => rfl
  | cons e rest ih =>
    obtain ⟨k1, v1⟩ := e
    rw [erase_cons, find_cons]
    by_cases hk : k1 = k
    · have h2 : k1 ≠ k2 := fun h => hne (h ▸ hk)
      rw [if_pos hk, if_neg h2]; exact ih
    · rw [if_neg hk, find_cons]
      by_cases h2 : k1 = k2
      · rw [if_pos h2, if_pos h2]
      · rw [if_neg h2, if_neg h2]; exact ih

theorem erase_of_find_none (m : StdMap α) {k : Ptr} (h : find m k = none) :
    erase m k = m := by
  induction m with
  | nil => rfl
  | cons e rest ih =>
    obtain ⟨k1, v1⟩ := e
    rw [find_cons] at h
    by_cases hk : k1 = k
    · rw [if_pos hk] at h; exact absurd h (by simp)
    · rw [if_neg hk] at h
      rw [erase_cons, if_neg hk, ih h]

end StdMap

/-! ## Accessors on known and unknown handles -/

namespace Android

theorem android_get_texture_id_unknown {s : State} {t : Ptr} (h : StdMap.find s.g_textures t = none) :
    webgpu_rend_get_texture_id s t = .ok ⟨s, -1, []⟩ := by
  simp [webgpu_rend_get_texture_id, (StdMap.count_eq_zero_iff _ _).2 h]

theorem android_get_wgpu_texture_unknown {s : State} {t : Ptr}
    (h : StdMap.find s.g_textures t = none) :
    webgpu_rend_get_wgpu_texture s t = .ok ⟨s, 0, []⟩ := by
  simp [webgpu_rend_get_wgpu_texture, (StdMap.count_eq_zero_iff _ _).2 h]

theorem android_get_wgpu_texture_view_unknown {s : State} {t : Ptr}
    (h : StdMap.find s.g_textures t = none) :
    webgpu_rend_get_wgpu_texture_view s t = .ok ⟨s, 0, []⟩ := by
  simp [webgpu_rend_get_wgpu_texture_view, (StdMap.count_eq_zero_iff _ _).2 h]

theorem android_present_texture_unknown {s : State} {t : Ptr} (env : PresentEnv)
    (h : StdMap.find s.g_textures t = none) :
    webgpu_rend_present_texture s env t = .ok ⟨s, (), []⟩ := by
  simp [webgpu_rend_present_texture, (StdMap.count_eq_zero_iff _ _).2 h]

theorem android_dispose_texture_unknown {s : State} {t : Ptr}
    (h : StdMap.find s.g_textures t = none) :
    webgpu_rend_dispose_texture s t = .ok ⟨s, (), []⟩ := by
  simp [webgpu_rend_dispose_texture, StdMap.erase_of_find_none _ h, h, destroy_slot]

theorem android_get_texture_id_live {s : State} {t : Ptr} {obj : AndroidTextureObject}
    (h : StdMap.find s.g_textures t = some (some obj)) :
    webgpu_rend_get_texture_id s t = .ok ⟨s, obj.flutter_texture_id, []⟩ := by
  simp [webgpu_rend_get_texture_id, StdMap.count_of_find_some h,
    StdMap.index_of_find_some h]

theorem android_get_wgpu_texture_live {s : State} {t : Ptr} {obj : AndroidTextureObject}
    (h : StdMap.find s.g_textures t = some (some obj)) :
    webgpu_rend_get_wgpu_texture s t = .ok ⟨s, obj.working_texture, []⟩ := by
  simp [webgpu_rend_get_wgpu_texture, StdMap.count_of_find_some h,
    StdMap.index_of_find_some h]

theorem android_get_wgpu_texture_view_live {s : State} {t : Ptr} {obj : AndroidTextureObject}
    (h : StdMap.find s.g_textures t = some (some obj)) :
    webgpu_rend_get_wgpu_texture_view s t = .ok ⟨s, obj.working_view, []⟩ := by
  simp [webgpu_rend_get_wgpu_texture_view, StdMap.count_of_find_some h,
    StdMap.index_of_find_some h]

end Android

namespace Windows

theorem windows_at_deref_live {s : State} {t : Ptr} {obj : GpuTextureObject}
    (h : StdMap.find s.g_textures t = some (some obj)) : at_deref s t = .ok obj := by
  simp [at_deref, StdMap.at_key_of_find_some h]

theorem windows_get_texture_id_unknown {s : State} {t : Ptr} (h : StdMap.find s.g_textures t = none) :
    webgpu_rend_get_texture_id s t = .ok ⟨s, -1, []⟩ := by
  simp [webgpu_rend_get_texture_id, (StdMap.count_eq_zero_iff _ _).2 h]

theorem windows_get_wgpu_texture_unknown {s : State} {t : Ptr}
    (h : StdMap.find s.g_textures t = none) :
    webgpu_rend_get_wgpu_texture s t = .ok ⟨s, 0, []⟩ := by
  simp [webgpu_rend_get_wgpu_texture, (StdMap.count_eq_zero_iff _ _).2 h]

theorem windows_get_wgpu_texture_view_unknown {s : State} {t : Ptr}
    (h : StdMap.find s.g_textures t = none) :
    webgpu_rend_get_wgpu_texture_view s t = .ok ⟨s, 0, []⟩ := by
  simp [webgpu_rend_get_wgpu_texture_view, (StdMap.count_eq_zero_iff _ _).2 h]

theorem windows_texture_begin_access_unknown {s : State} {t : Ptr}
    (h : StdMap.find s.g_textures t = none) :
    webgpu_rend_texture_begin_access s t = .ok ⟨s, (), []⟩ := by
  simp [webgpu_rend_texture_begin_access, (StdMap.count_eq_zero_iff _ _).2 h]

theorem windows_texture_end_access_unknown {s : State} {t : Ptr}
    (h : StdMap.find s.g_textures t = none) :
    webgpu_rend_texture_end_access s t = .ok ⟨s, (), []⟩ := by
  simp [webgpu_rend_texture_end_access, (StdMap.count_eq_zero_iff _ _).2 h]

theorem windows_present_texture_unknown {s : State} {t : Ptr}
    (h : StdMap.find s.g_textures t = none) :
    webgpu_rend_present_texture s t = .ok ⟨s, (), []⟩ := by
  simp [webgpu_rend_present_texture, (StdMap.count_eq_zero_iff _ _).2 h]

theorem windows_dispose_texture_unknown {s : State} {t : Ptr}
    (h : StdMap.find s.g_textures t = none) :
    webgpu_rend_dispose_texture s t = .ok ⟨s, (), []⟩ := by
  simp [webgpu_rend_dispose_texture, StdMap.erase_of_find_none _ h, h, destroy_slot]

theorem windows_get_texture_id_live {s : State} {t : Ptr} {obj : GpuTextureObject}
    (h : StdMap.find s.g_textures t = some (some obj)) :
    webgpu_rend_get_texture_id s t = .ok ⟨s, obj.texture_id, []⟩ := by
  simp [webgpu_rend_get_texture_id, StdMap.count_of_find_some h, windows_at_deref_live h]

theorem windows_get_wgpu_texture_live {s : State} {t : Ptr} {obj : GpuTextureObject}
    (h : StdMap.find s.g_textures t = some (some obj)) :
    webgpu_rend_get_wgpu_texture s t = .ok ⟨s, obj.webgpu_texture, []⟩ := by
  simp [webgpu_rend_get_wgpu_texture, StdMap.count_of_find_some h, windows_at_deref_live h]

theorem windows_get_wgpu_texture_view_live {s : State} {t : Ptr} {obj : GpuTextureObject}
    (h : StdMap.find s.g_textures t = some (some obj)) :
    webgpu_rend_get_wgpu_texture_view s t = .ok ⟨s, obj.default_view, []⟩ := by
  simp [webgpu_rend_get_wgpu_texture_view, StdMap.count_of_find_some h, windows_at_deref_live h]

end Windows

/-! ## What every reachable state satisfies -/

namespace Android

theorem android_get_texture_id_state {s : State} {t : Ptr} {o : Outcome State Call Int}
    (h : webgpu_rend_get_texture_id s t = .ok o) : o.state = s := by
  cases hf : StdMap.find s.g_textures t with
  | none =>
    rw [android_get_texture_id_unknown hf] at h
    cases h; rfl
  | some v =>
    cases v with
    | none =>
      simp [webgpu_rend_get_texture_id, StdMap.count_of_find_some hf,
        StdMap.index_of_find_some hf] at h
    | some obj =>
      rw [android_get_texture_id_live hf] at h
      cases h; rfl

theorem android_get_wgpu_texture_state {s : State} {t : Ptr} {o : Outcome State Call Ptr}
    (h : webgpu_rend_get_wgpu_texture s t = .ok o) : o.state = s := by
  cases hf : StdMap.find s.g_textures t with
  | none =>
    rw [android_get_wgpu_texture_unknown hf] at h
    cases h; rfl
  | some v =>
    cases v with
    | none =>
      simp [webgpu_rend_get_wgpu_texture, StdMap.count_of_find_some hf,
        StdMap.index_of_find_some hf] at h
    | some obj =>
      rw [android_get_wgpu_texture_live hf] at h
      cases h; rfl

theorem android_get_wgpu_texture_view_state {s : State} {t : Ptr} {o : Outcome State Call Ptr}
    (h : webgpu_rend_get_wgpu_texture_view s t = .ok o) : o.state = s := by
  cases hf : StdMap.find s.g_textures t with
  | none =>
    rw [android_get_wgpu_texture_view_unknown hf] at h
    cases h; rfl
  | some v =>
    cases v with
    | none =>
      simp [webgpu_rend_get_wgpu_texture_view, StdMap.count_of_find_some hf,
        StdMap.index_of_find_some hf] at h
    | some obj =>
      rw [android_get_wgpu_texture_view_live hf] at h
      cases h; rfl

theorem android_present_texture_state {s : State} {env : PresentEnv} {t : Ptr}
    {o : Outcome State Call Unit}
    (h : webgpu_rend_present_texture s env t = .ok o) : o.state = s := by
  cases hf : StdMap.find s.g_textures t with
  | none =>
    rw [android_present_texture_unknown env hf] at h
    cases h; rfl
  | some v =>
    cases v with
    | none =>
      simp [webgpu_rend_present_texture, StdMap.count_of_find_some hf,
        StdMap.index_of_find_some hf] at h
    | some obj =>
      simp only [webgpu_rend_present_texture, StdMap.count_of_find_some hf,
        StdMap.index_of_find_some hf] at h
      rw [if_neg Nat.one_ne_zero] at h
      split at h
      · cases h; rfl
      · split at h
        · cases h
        · cases h; rfl

theorem android_init_preserves {s : State} {env : InitEnv} {o : Outcome State Call Ptr}
    (hinv : Inv s) (hok : env.new_instance ≠ 0) (h : webgpu_rend_init s env = .ok o) :
    Inv o.state := by
  unfold webgpu_rend_init at h
  by_cases hdev : s.g_device ≠ 0
  · rw [if_pos hdev] at h
    cases h; exact hinv
  · rw [if_neg hdev] at h
    have hdev0 : s.g_device = 0 := by simpa using hdev
    cases hads : env.adapters with
    | nil =>
      simp only [hads] at h
      cases h
      exact ⟨fun _ => hinv.1 hdev0, fun hd => absurd hdev0 hd⟩
    | cons adapter rest =>
      simp only [hads] at h
      by_cases hc : env.createDevice adapter = 0
      · rw [if_pos hc] at h; cases h
      · rw [if_neg hc] at h
        cases h
        exact ⟨fun hd => absurd hd hc, fun _ => hok⟩

theorem android_create_texture_preserves {s : State} {env : CreateEnv} {w h : Int}
    {o : Outcome State Call Ptr}
    (hinv : Inv s) (hrun : webgpu_rend_create_texture s env w h = .ok o) : Inv o.state := by
  unfold webgpu_rend_create_texture at hrun
  split at hrun
  · cases hrun; exact hinv
  · rename_i hdev
    split at hrun
    · cases hrun
    · cases hrun
      exact ⟨fun hd => absurd hd hdev, hinv.2⟩

theorem android_dispose_texture_preserves {s : State} {t : Ptr} {o : Outcome State Call Unit}
    (hinv : Inv s) (hrun : webgpu_rend_dispose_texture s t = .ok o) : Inv o.state := by
  unfold webgpu_rend_dispose_texture at hrun
  cases hrun
  refine ⟨fun hd => ?_, hinv.2⟩
  have h0 : s.g_textures = [] := hinv.1 hd
  show StdMap.erase s.g_textures t = []
  rw [h0]; rfl

theorem android_effect_ok {ρ : Type} (r : Result ρ) {s1 : State} {calls : List Call}
    (h : effect r = .ok (s1, calls)) : ∃ o, r = .ok o ∧ o.state = s1 ∧ o.calls = calls := by
  cases r with
  | error f => cases h
  | ok o =>
    simp only [effect, Except.ok.injEq, Prod.mk.injEq] at h
    exact ⟨o, rfl, h.1, h.2⟩

theorem android_run_preserves {s s1 : State} {calls : List Call} (op : Op)
    (hinv : Inv s) (hok : op.env_ok) (hrun : run s op = .ok (s1, calls)) : Inv s1 := by
  cases op with
  | get_proc_address proc =>
    obtain ⟨o, ho, hs, _⟩ := android_effect_ok (webgpu_rend_get_proc_address s proc) hrun
    cases ho; exact hs ▸ hinv
  | init env =>
    obtain ⟨o, ho, hs, _⟩ := android_effect_ok (webgpu_rend_init s env) hrun
    exact hs ▸ android_init_preserves hinv hok ho
  | create_texture env w h =>
    obtain ⟨o, ho, hs, _⟩ := android_effect_ok (webgpu_rend_create_texture s env w h) hrun
    exact hs ▸ android_create_texture_preserves hinv ho
  | get_texture_id t =>
    obtain ⟨o, ho, hs, _⟩ := android_effect_ok (webgpu_rend_get_texture_id s t) hrun
    rw [← hs, android_get_texture_id_state ho]; exact hinv
  | get_wgpu_texture t =>
    obtain ⟨o, ho, hs, _⟩ := android_effect_ok (webgpu_rend_get_wgpu_texture s t) hrun
    rw [← hs, android_get_wgpu_texture_state ho]; exact hinv
  | get_wgpu_texture_view t =>
    obtain ⟨o, ho, hs, _⟩ := android_effect_ok (webgpu_rend_get_wgpu_texture_view s t) hrun
    rw [← hs, android_get_wgpu_texture_view_state ho]; exact hinv
  | texture_begin_access t =>
    obtain ⟨o, ho, hs, _⟩ := android_effect_ok (webgpu_rend_texture_begin_access s t) hrun
    cases ho; exact hs ▸ hinv
  | texture_end_access t =>
    obtain ⟨o, ho, hs, _⟩ := android_effect_ok (webgpu_rend_texture_end_access s t) hrun
    cases ho; exact hs ▸ hinv
  | present_texture env t =>
    obtain ⟨o, ho, hs, _⟩ := android_effect_ok (webgpu_rend_present_texture s env t) hrun
    rw [← hs, android_present_texture_state ho]; exact hinv
  | dispose_texture t =>
    obtain ⟨o, ho, hs, _⟩ := android_effect_ok (webgpu_rend_dispose_texture s t) hrun
    exact hs ▸ android_dispose_texture_preserves hinv ho

theorem android_reachable_inv {s : State} (h : Reachable s) : Inv s := by
  induction h with
  | initial => exact ⟨fun _ => rfl, fun hd => absurd rfl hd⟩
  | call op _ hok hrun ih => exact android_run_preserves op ih hok hrun

end Android

namespace Windows

theorem windows_get_texture_id_state {s : State} {t : Ptr} {o : Outcome State Call Int}
    (h : webgpu_rend_get_texture_id s t = .ok o) : o.state = s := by
  unfold webgpu_rend_get_texture_id at h
  split at h
  · split at h
    · cases h
    · cases h; rfl
  · cases h; rfl

theorem windows_get_wgpu_texture_state {s : State} {t : Ptr} {o : Outcome State Call Ptr}
    (h : webgpu_rend_get_wgpu_texture s t = .ok o) : o.state = s := by
  unfold webgpu_rend_get_wgpu_texture at h
  split at h
  · split at h
    · cases h
    · cases h; rfl
  · cases h; rfl

theorem windows_get_wgpu_texture_view_state {s : State} {t : Ptr} {o : Outcome State Call Ptr}
    (h : webgpu_rend_get_wgpu_texture_view s t = .ok o) : o.state = s := by
  unfold webgpu_rend_get_wgpu_texture_view at h
  split at h
  · split at h
    · cases h
    · cases h; rfl
  · cases h; rfl

theorem windows_texture_begin_access_state {s : State} {t : Ptr} {o : Outcome State Call Unit}
    (h : webgpu_rend_texture_begin_access s t = .ok o) : o.state = s := by
  unfold webgpu_rend_texture_begin_access at h
  split at h
  · cases h; rfl
  · split at h
    · cases h
    · cases h; rfl

theorem windows_texture_end_access_state {s : State} {t : Ptr} {o : Outcome State Call Unit}
    (h : webgpu_rend_texture_end_access s t = .ok o) : o.state = s := by
  unfold webgpu_rend_texture_end_access at h
  split at h
  · cases h; rfl
  · split at h
    · cases h
    · cases h; rfl

theorem windows_present_texture_state {s : State} {t : Ptr} {o : Outcome State Call Unit}
    (h : webgpu_rend_present_texture s t = .ok o) : o.state = s := by
  unfold webgpu_rend_present_texture at h
  split at h
  · cases h; rfl
  · split at h
    · cases h
    · cases h; rfl

theorem windows_InitializeDawn_preserves (s : State) (env : InitEnv) (hinv : Inv s) :
    Inv (InitializeDawn s env).state := by
  unfold InitializeDawn
  by_cases hdev : s.g_wgpu_device ≠ 0
  · rw [if_pos hdev]; exact hinv
  · rw [if_neg hdev]
    have hdev0 : s.g_wgpu_device = 0 := by simpa using hdev
    cases hads : env.adapters with
    | nil => exact fun _ => hinv hdev0
    | cons first rest =>
      dsimp only
      by_cases hc : env.createDevice (chooseAdapterLoop first (first :: rest)).1 = 0
      · rw [if_pos hc]; exact fun _ => hinv hdev0
      · rw [if_neg hc]; exact fun hd => absurd hd hc

theorem windows_create_texture_preserves {s : State} {env : CreateEnv} {w h : Int}
    {o : Outcome State Call Ptr}
    (hinv : Inv s) (hrun : webgpu_rend_create_texture s env w h = .ok o) : Inv o.state := by
  unfold webgpu_rend_create_texture at hrun
  split at hrun
  · cases hrun; exact hinv
  · rename_i hdev
    split at hrun
    · cases hrun
    · cases hrun; exact hinv
    · cases hrun
      exact fun hd => absurd hd hdev

theorem windows_dispose_texture_preserves {s : State} {t : Ptr} {o : Outcome State Call Unit}
    (hinv : Inv s) (hrun : webgpu_rend_dispose_texture s t = .ok o) : Inv o.state := by
  unfold webgpu_rend_dispose_texture at hrun
  cases hrun
  intro hd
  have h0 : s.g_textures = [] := hinv hd
  show StdMap.erase s.g_textures t = []
  rw [h0]; rfl

theorem windows_RegisterWithRegistrar_preserves {s : State} {env : RegisterEnv}
    {o : Outcome State Call Unit}
    (hinv : Inv s) (hrun : RegisterWithRegistrar s env = .ok o) : Inv o.state := by
  unfold RegisterWithRegistrar InitializeD3D11 at hrun
  dsimp only at hrun
  split at hrun <;> (cases hrun; exact hinv)

theorem windows_effect_ok {ρ : Type} (r : Result ρ) {s1 : State} {calls : List Call}
    (h : effect r = .ok (s1, calls)) : ∃ o, r = .ok o ∧ o.state = s1 ∧ o.calls = calls := by
  cases r with
  | error f => cases h
  | ok o =>
    simp only [effect, Except.ok.injEq, Prod.mk.injEq] at h
    exact ⟨o, rfl, h.1, h.2⟩

theorem windows_run_preserves {s s1 : State} {calls : List Call} (op : Op)
    (hinv : Inv s) (hrun : run s op = .ok (s1, calls)) : Inv s1 := by
  cases op with
  | register_with_registrar env =>
    obtain ⟨o, ho, hs, _⟩ := windows_effect_ok (RegisterWithRegistrar s env) hrun
    exact hs ▸ windows_RegisterWithRegistrar_preserves hinv ho
  | get_proc_address proc =>
    obtain ⟨o, ho, hs, _⟩ := windows_effect_ok (webgpu_rend_get_proc_address s proc) hrun
    cases ho; exact hs ▸ hinv
  | init env =>
    obtain ⟨o, ho, hs, _⟩ := windows_effect_ok (webgpu_rend_init s env) hrun
    cases ho
    exact hs ▸ windows_InitializeDawn_preserves s env hinv
  | create_texture env w h =>
    obtain ⟨o, ho, hs, _⟩ := windows_effect_ok (webgpu_rend_create_texture s env w h) hrun
    exact hs ▸ windows_create_texture_preserves hinv ho
  | get_texture_id t =>
    obtain ⟨o, ho, hs, _⟩ := windows_effect_ok (webgpu_rend_get_texture_id s t) hrun
    rw [← hs, windows_get_texture_id_state ho]; exact hinv
  | get_wgpu_texture t =>
    obtain ⟨o, ho, hs, _⟩ := windows_effect_ok (webgpu_rend_get_wgpu_texture s t) hrun
    rw [← hs, windows_get_wgpu_texture_state ho]; exact hinv
  | get_wgpu_texture_view t =>
    obtain ⟨o, ho, hs, _⟩ := windows_effect_ok (webgpu_rend_get_wgpu_texture_view s t) hrun
    rw [← hs, windows_get_wgpu_texture_view_state ho]; exact hinv
  | texture_begin_access t =>
    obtain ⟨o, ho, hs, _⟩ := windows_effect_ok (webgpu_rend_texture_begin_access s t) hrun
    rw [← hs, windows_texture_begin_access_state ho]; exact hinv
  | texture_end_access t =>
    obtain ⟨o, ho, hs, _⟩ := windows_effect_ok (webgpu_rend_texture_end_access s t) hrun
    rw [← hs, windows_texture_end_access_state ho]; exact hinv
  | present_texture t =>
    obtain ⟨o, ho, hs, _⟩ := windows_effect_ok (webgpu_rend_present_texture s t) hrun
    rw [← hs, windows_present_texture_state ho]; exact hinv
  | dispose_texture t =>
    obtain ⟨o, ho, hs, _⟩ := windows_effect_ok (webgpu_rend_dispose_texture s t) hrun
    exact hs ▸ windows_dispose_texture_preserves hinv ho

theorem windows_reachable_inv {s : State} (h : Reachable s) : Inv s := by
  induction h with
  | initial => exact fun _ => rfl
  | call op _ _ hrun ih => exact windows_run_preserves op ih hrun

end Windows

/-! ## Unknown handles -/

/-- C1. On both platforms, for a handle that is not a key of the texture registry,
`get_texture_id` returns -1, `get_wgpu_texture` and `get_wgpu_texture_view` return null,
`begin_access`, `end_access`, `present_texture` and `dispose_texture` issue no call at all,
and each of the seven leaves the globals, the registry included, exactly as they were. -/
theorem unknown_handle_is_noop
    (sa : Android.State) (ta : Ptr) (env : Android.PresentEnv)
    (sw : Windows.State) (tw : Ptr)
    (ha : StdMap.find sa.g_textures ta = none)
    (hw : StdMap.find sw.g_textures tw = none) :
    (Android.webgpu_rend_get_texture_id sa ta = .ok ⟨sa, -1, []⟩ ∧
     Android.webgpu_rend_get_wgpu_texture sa ta = .ok ⟨sa, 0, []⟩ ∧
     Android.webgpu_rend_get_wgpu_texture_view sa ta = .ok ⟨sa, 0, []⟩ ∧
     Android.webgpu_rend_texture_begin_access sa ta = .ok ⟨sa, (), []⟩ ∧
     Android.webgpu_rend_texture_end_access sa ta = .ok ⟨sa, (), []⟩ ∧
     Android.webgpu_rend_present_texture sa env ta = .ok ⟨sa, (), []⟩ ∧
     Android.webgpu_rend_dispose_texture sa ta = .ok ⟨sa, (), []⟩) ∧
    (Windows.webgpu_rend_get_texture_id sw tw = .ok ⟨sw, -1, []⟩ ∧
     Windows.webgpu_rend_get_wgpu_texture sw tw = .ok ⟨sw, 0, []⟩ ∧
     Windows.webgpu_rend_get_wgpu_texture_view sw tw = .ok ⟨sw, 0, []⟩ ∧
     Windows.webgpu_rend_texture_begin_access sw tw = .ok ⟨sw, (), []⟩ ∧
     Windows.webgpu_rend_texture_end_access sw tw = .ok ⟨sw, (), []⟩ ∧
     Windows.webgpu_rend_present_texture sw tw = .ok ⟨sw, (), []⟩ ∧
     Windows.webgpu_rend_dispose_texture sw tw = .ok ⟨sw, (), []⟩) := by
  exact ⟨⟨Android.android_get_texture_id_unknown ha, Android.android_get_wgpu_texture_unknown ha,
      Android.android_get_wgpu_texture_view_unknown ha, rfl, rfl,
      Android.android_present_texture_unknown env ha, Android.android_dispose_texture_unknown ha⟩,
    ⟨Windows.windows_get_texture_id_unknown hw, Windows.windows_get_wgpu_texture_unknown hw,
      Windows.windows_get_wgpu_texture_view_unknown hw, Windows.windows_texture_begin_access_unknown hw,
      Windows.windows_texture_end_access_unknown hw, Windows.windows_present_texture_unknown hw,
      Windows.windows_dispose_texture_unknown hw⟩⟩

/-- C1 at the sample states: handle 24576 is not registered while 16384 is. -/
theorem unknown_handle_is_noop_witness :
    StdMap.find Android.sample_state1.g_textures 24576 = none ∧
    StdMap.find Windows.sample_state1.g_textures 24576 = none ∧
    Android.webgpu_rend_get_texture_id Android.sample_state1 24576 =
      .ok ⟨Android.sample_state1, -1, []⟩ ∧
    Windows.webgpu_rend_dispose_texture Windows.sample_state1 24576 =
      .ok ⟨Windows.sample_state1, (), []⟩ :=
  ⟨rfl, rfl,
   (unknown_handle_is_noop Android.sample_state1 24576
      ⟨SurfaceGetCurrentTextureStatus.SuccessOptimal, 1, 2, 3⟩
      Windows.sample_state1 24576 rfl rfl).1.1,
   (unknown_handle_is_noop Android.sample_state1 24576
      ⟨SurfaceGetCurrentTextureStatus.SuccessOptimal, 1, 2, 3⟩
      Windows.sample_state1 24576 rfl rfl).2.2.2.2.2.2.2⟩

/-! ## Disposal -/

/-- C2. On both platforms, disposing a live handle `h` issues the destruction of its object
and removes exactly the entry of `h`: afterwards `h` is not a key, `get_texture_id(h)`
returns -1, `get_wgpu_texture(h)` and `get_wgpu_texture_view(h)` return null, every other
key maps to what it mapped to before, and every other live handle yields the same id,
texture and view as before; device, queue and instance are untouched. -/
theorem dispose_removes_exactly_its_entry
    (sa : Android.State) (ha : Ptr) (oa : Android.AndroidTextureObject)
    (sw : Windows.State) (hw : Ptr) (ow : Windows.GpuTextureObject)
    (hla : StdMap.find sa.g_textures ha = some (some oa))
    (hlw : StdMap.find sw.g_textures hw = some (some ow)) :
    (∃ sa1 : Android.State,
      Android.webgpu_rend_dispose_texture sa ha = .ok ⟨sa1, (), oa.destroy⟩ ∧
      sa1.g_instance = sa.g_instance ∧ sa1.g_device = sa.g_device ∧
      sa1.g_queue = sa.g_queue ∧
      StdMap.find sa1.g_textures ha = none ∧
      Android.webgpu_rend_get_texture_id sa1 ha = .ok ⟨sa1, -1, []⟩ ∧
      Android.webgpu_rend_get_wgpu_texture sa1 ha = .ok ⟨sa1, 0, []⟩ ∧
      Android.webgpu_rend_get_wgpu_texture_view sa1 ha = .ok ⟨sa1, 0, []⟩ ∧
      (∀ h2 : Ptr, h2 ≠ ha → StdMap.find sa1.g_textures h2 = StdMap.find sa.g_textures h2) ∧
      (∀ (h2 : Ptr) (o2 : Android.AndroidTextureObject), h2 ≠ ha →
        StdMap.find sa.g_textures h2 = some (some o2) →
        Android.webgpu_rend_get_texture_id sa1 h2 = .ok ⟨sa1, o2.flutter_texture_id, []⟩ ∧
        Android.webgpu_rend_get_wgpu_texture sa1 h2 = .ok ⟨sa1, o2.working_texture, []⟩ ∧
        Android.webgpu_rend_get_wgpu_texture_view sa1 h2 =
          .ok ⟨sa1, o2.working_view, []⟩)) ∧
    (∃ sw1 : Windows.State,
      Windows.webgpu_rend_dispose_texture sw hw = .ok ⟨sw1, (), ow.destroy⟩ ∧
      sw1.g_dawn_instance = sw.g_dawn_instance ∧ sw1.g_wgpu_device = sw.g_wgpu_device ∧
      sw1.g_wgpu_queue = sw.g_wgpu_queue ∧
      StdMap.find sw1.g_textures hw = none ∧
      Windows.webgpu_rend_get_texture_id sw1 hw = .ok ⟨sw1, -1, []⟩ ∧
      Windows.webgpu_rend_get_wgpu_texture sw1 hw = .ok ⟨sw1, 0, []⟩ ∧
      Windows.webgpu_rend_get_wgpu_texture_view sw1 hw = .ok ⟨sw1, 0, []⟩ ∧
      (∀ h2 : Ptr, h2 ≠ hw → StdMap.find sw1.g_textures h2 = StdMap.find sw.g_textures h2) ∧
      (∀ (h2 : Ptr) (o2 : Windows.GpuTextureObject), h2 ≠ hw →
        StdMap.find sw.g_textures h2 = some (some o2) →
        Windows.webgpu_rend_get_texture_id sw1 h2 = .ok ⟨sw1, o2.texture_id, []⟩ ∧
        Windows.webgpu_rend_get_wgpu_texture sw1 h2 = .ok ⟨sw1, o2.webgpu_texture, []⟩ ∧
        Windows.webgpu_rend_get_wgpu_texture_view sw1 h2 =
          .ok ⟨sw1, o2.default_view, []⟩)) := by
  constructor
  · have hnone : StdMap.find (StdMap.erase sa.g_textures ha) ha = none :=
      StdMap.find_erase_self _ _
    refine ⟨{ sa with g_textures := StdMap.erase sa.g_textures ha }, ?_, rfl, rfl, rfl,
      hnone, Android.android_get_texture_id_unknown hnone, Android.android_get_wgpu_texture_unknown hnone,
      Android.android_get_wgpu_texture_view_unknown hnone,
      fun h2 hne => StdMap.find_erase_other _ hne, ?_⟩
    · simp [Android.webgpu_rend_dispose_texture, hla, Android.destroy_slot,
        Android.destroy_unique_ptr]
    · intro h2 o2 hne hl
      have hl1 : StdMap.find (StdMap.erase sa.g_textures ha) h2 = some (some o2) := by
        rw [StdMap.find_erase_other _ hne]; exact hl
      exact ⟨Android.android_get_texture_id_live hl1, Android.android_get_wgpu_texture_live hl1,
        Android.android_get_wgpu_texture_view_live hl1⟩
  · have hnone : StdMap.find (StdMap.erase sw.g_textures hw) hw = none :=
      StdMap.find_erase_self _ _
    refine ⟨{ sw with g_textures := StdMap.erase sw.g_textures hw }, ?_, rfl, rfl, rfl,
      hnone, Windows.windows_get_texture_id_unknown hnone, Windows.windows_get_wgpu_texture_unknown hnone,
      Windows.windows_get_wgpu_texture_view_unknown hnone,
      fun h2 hne => StdMap.find_erase_other _ hne, ?_⟩
    · simp [Windows.webgpu_rend_dispose_texture, hlw, Windows.destroy_slot,
        Windows.destroy_unique_ptr]
    · intro h2 o2 hne hl
      have hl1 : StdMap.find (StdMap.erase sw.g_textures hw) h2 = some (some o2) := by
        rw [StdMap.find_erase_other _ hne]; exact hl
      exact ⟨Windows.windows_get_texture_id_live hl1, Windows.windows_get_wgpu_texture_live hl1,
        Windows.windows_get_wgpu_texture_view_live hl1⟩

/-- C2 on the scenario of the specification, on both platforms: initialise, create a 256x256
texture (`get_texture_id` then returns the host id 7), present once, dispose; afterwards
`get_texture_id` returns -1. -/
theorem dispose_removes_exactly_its_entry_witness :
    (∃ c, Android.webgpu_rend_init Android.initial_state Android.sample_init_env =
      .ok ⟨Android.sample_state0, 8192, c⟩) ∧
    (∃ c, Android.webgpu_rend_create_texture Android.sample_state0 Android.sample_create_env
      256 256 = .ok ⟨Android.sample_state1, 16384, c⟩) ∧
    Android.webgpu_rend_get_texture_id Android.sample_state1 16384 =
      .ok ⟨Android.sample_state1, 7, []⟩ ∧
    (∃ c, Android.webgpu_rend_present_texture Android.sample_state1
      ⟨SurfaceGetCurrentTextureStatus.SuccessOptimal, 800, 810, 820⟩ 16384 =
      .ok ⟨Android.sample_state1, (), c⟩) ∧
    StdMap.find Android.sample_state1.g_textures 16384 = some (some Android.sample_object) ∧
    (∃ sa1 : Android.State,
      Android.webgpu_rend_dispose_texture Android.sample_state1 16384 =
        .ok ⟨sa1, (), Android.sample_object.destroy⟩ ∧
      Android.webgpu_rend_get_texture_id sa1 16384 = .ok ⟨sa1, -1, []⟩) ∧
    (∃ c, Windows.RegisterWithRegistrar Windows.initial_state Windows.sample_register_env =
      .ok ⟨Windows.sample_state_registered,
           (), c⟩) ∧
    (∃ c, Windows.webgpu_rend_init
      Windows.sample_state_registered
      Windows.sample_init_env = .ok ⟨Windows.sample_state0, 8194, c⟩) ∧
    (∃ c, Windows.webgpu_rend_create_texture Windows.sample_state0 Windows.sample_create_env
      256 256 = .ok ⟨Windows.sample_state1, 16384, c⟩) ∧
    Windows.webgpu_rend_get_texture_id Windows.sample_state1 16384 =
      .ok ⟨Windows.sample_state1, 7, []⟩ ∧
    (∃ c, Windows.webgpu_rend_present_texture Windows.sample_state1 16384 =
      .ok ⟨Windows.sample_state1, (), c⟩) ∧
    StdMap.find Windows.sample_state1.g_textures 16384 = some (some Windows.sample_object) ∧
    (∃ sw1 : Windows.State,
      Windows.webgpu_rend_dispose_texture Windows.sample_state1 16384 =
        .ok ⟨sw1, (), Windows.sample_object.destroy⟩ ∧
      Windows.webgpu_rend_get_texture_id sw1 16384 = .ok ⟨sw1, -1, []⟩) := by
  have key := dispose_removes_exactly_its_entry Android.sample_state1 16384
    Android.sample_object Windows.sample_state1 16384 Windows.sample_object rfl rfl
  refine ⟨⟨_, rfl⟩, ⟨_, rfl⟩, rfl, ⟨_, rfl⟩, rfl, ?_, ⟨_, rfl⟩, ⟨_, rfl⟩, ⟨_, rfl⟩, rfl,
    ⟨_, rfl⟩, rfl, ?_⟩
  · obtain ⟨sa1, h⟩ := key.1
    exact ⟨sa1, h.1, h.2.2.2.2.2.1⟩
  · obtain ⟨sw1, h⟩ := key.2
    exact ⟨sw1, h.1, h.2.2.2.2.2.1⟩

/-! ## Creation -/

namespace Android

theorem android_sample_state0_reachable : Reachable sample_state0 :=
  Reachable.call (Op.init sample_init_env) Reachable.initial
    (show (4096 : Nat) ≠ 0 by decide) rfl

theorem android_sample_state1_reachable : Reachable sample_state1 :=
  Reachable.call (Op.create_texture sample_create_env 256 256) android_sample_state0_reachable
    (show (16384 : Nat) ≠ 0 by decide) rfl

theorem android_sample_state2_reachable : Reachable sample_state2 :=
  Reachable.call (Op.create_texture sample_create_env2 64 32) android_sample_state1_reachable
    (show (20480 : Nat) ≠ 0 by decide) rfl

end Android

namespace Windows

/-- A failed `CreateTexture2D` makes the constructor throw: creation returns null and the
globals stay as they were. -/
theorem windows_create_texture_alloc_failure {s : State} (env : CreateEnv) (w h : Int)
    (hd : s.g_wgpu_device ≠ 0) (hreg : s.g_texture_registrar ≠ 0) (hd3d : s.g_d3d_device ≠ 0)
    (halloc : env.d3d_texture = none) :
    webgpu_rend_create_texture s env w h =
      .ok ⟨s, 0, [Call.CreateTexture2D s.g_d3d_device (toUint32 w) (toUint32 h)]⟩ := by
  unfold webgpu_rend_create_texture GpuTextureObject.construct
  rw [if_neg hd, if_neg hreg, if_neg hd3d, halloc]

theorem windows_sample_state_registered_reachable : Reachable sample_state_registered :=
  Reachable.call (Op.register_with_registrar sample_register_env) Reachable.initial
    trivial rfl

theorem windows_sample_state0_reachable : Reachable sample_state0 :=
  Reachable.call (Op.init sample_init_env) windows_sample_state_registered_reachable
    (show (4096 : Nat) ≠ 0 by decide) rfl

theorem windows_sample_state1_reachable : Reachable sample_state1 :=
  Reachable.call (Op.create_texture sample_create_env 256 256) windows_sample_state0_reachable
    (show (16384 : Nat) ≠ 0 by decide) rfl

theorem windows_sample_state2_reachable : Reachable sample_state2 :=
  Reachable.call (Op.create_texture sample_create_env2 64 32) windows_sample_state1_reachable
    (show (20480 : Nat) ≠ 0 by decide) rfl

end Windows

namespace Android

end Android

namespace Windows

end Windows

/-- C4, the code at a failing import. In the reachable state `sample_state0` (registrar,
D3D11 device and GPU device present, empty registry) a 256x256 creation whose
`CreateTexture2D` succeeds and whose `ImportSharedTextureMemory` fails returns the non-null
handle 16384 and leaves the object, built around the error object, in the registry. -/
theorem create_texture_import_failure_is_registered :
    Windows.Reachable Windows.sample_state0 ∧
    Windows.sample_state0.g_textures = [] ∧
    Windows.import_failure_env.d3d_texture = some 300 ∧
    Windows.import_failure_env.shared_memory = Windows.Imported.error 500 ∧
    ∃ (s1 : Windows.State) (c : List Windows.Call) (obj : Windows.GpuTextureObject),
      Windows.webgpu_rend_create_texture Windows.sample_state0 Windows.import_failure_env
        256 256 = .ok ⟨s1, 16384, c⟩ ∧
      s1.g_textures = [(16384, some obj)] ∧
      obj.shared_memory = Windows.Imported.error 500 ∧
      Windows.webgpu_rend_get_texture_id s1 16384 = .ok ⟨s1, 7, []⟩ :=
  ⟨Windows.windows_sample_state0_reachable, rfl, rfl, rfl, _, _, _, rfl, rfl, rfl, rfl⟩

/-! ## Initialisation -/

namespace Android

/-- What `webgpu_rend_init` returns is the device the globals hold afterwards. -/
theorem android_init_ret_eq_device {s : State} {env : InitEnv} {o : Outcome State Call Ptr}
    (h : webgpu_rend_init s env = .ok o) : o.ret = o.state.g_device := by
  unfold webgpu_rend_init at h
  by_cases hdev : s.g_device ≠ 0
  · rw [if_pos hdev] at h
    cases h; rfl
  · rw [if_neg hdev] at h
    have hdev0 : s.g_device = 0 := by simpa using hdev
    cases hads : env.adapters with
    | nil =>
      simp only [hads] at h
      cases h
      exact hdev0.symm
    | cons adapter rest =>
      simp only [hads] at h
      by_cases hc : env.createDevice adapter = 0
      · rw [if_pos hc] at h; cases h
      · rw [if_neg hc] at h
        cases h; rfl

theorem android_init_with_device {s : State} (env : InitEnv) (hd : s.g_device ≠ 0) :
    webgpu_rend_init s env = .ok ⟨s, s.g_device, []⟩ := by
  unfold webgpu_rend_init
  rw [if_pos hd]

/-- With no device and an empty adapter list, `webgpu_rend_init` returns null and leaves
device, queue and registry as they were. -/
theorem android_init_no_adapter {s : State} (env : InitEnv) (hd : s.g_device = 0)
    (hads : env.adapters = []) :
    ∃ c, webgpu_rend_init s env = .ok ⟨{ s with g_instance := env.new_instance }, 0, c⟩ := by
  unfold webgpu_rend_init
  rw [if_neg (by simpa using hd)]
  simp only [hads]
  exact ⟨_, rfl⟩

end Android

namespace Windows

theorem windows_init_with_device {s : State} (env : InitEnv) (hd : s.g_wgpu_device ≠ 0) :
    webgpu_rend_init s env = .ok ⟨s, s.g_wgpu_device, []⟩ := by
  unfold webgpu_rend_init InitializeDawn
  rw [if_pos hd]

/-- What `webgpu_rend_init` returns is the device the globals hold afterwards. -/
theorem windows_init_ret_eq_device {s : State} {env : InitEnv} {o : Outcome State Call Ptr}
    (h : webgpu_rend_init s env = .ok o) : o.ret = o.state.g_wgpu_device := by
  unfold webgpu_rend_init at h
  cases h; rfl

/-- With no device, an empty adapter list or a failed device creation makes
`webgpu_rend_init` return null and leave device, queue and registry as they were. -/
theorem windows_init_failure {s : State} (env : InitEnv) (hd : s.g_wgpu_device = 0)
    (hfail : env.adapters = [] ∨ ∀ a, env.createDevice a = 0) :
    ∃ c, webgpu_rend_init s env =
      .ok ⟨{ s with g_dawn_instance := env.new_instance }, 0, c⟩ := by
  have hstate : (InitializeDawn s env).state =
      { s with g_dawn_instance := env.new_instance } := by
    unfold InitializeDawn
    rw [if_neg (by simpa using hd)]
    cases hads : env.adapters with
    | nil => rfl
    | cons first rest =>
      rcases hfail with h | h
      · rw [hads] at h; cases h
      · simp only [h, if_true]
  refine ⟨(InitializeDawn s env).calls, ?_⟩
  unfold webgpu_rend_init
  simp only [hstate, hd]

end Windows

/-- C5. On both platforms, in a state that holds a device, `init` returns that device,
issues no call at all (no adapter enumeration, no device creation) and leaves every global
(instance, device, queue, registry) as it was; a second `init` then does the same.  More
generally, from any state, once a call of `init` has returned a non-null handle the next
call returns the same handle, issues no call and changes nothing. -/
theorem init_is_idempotent
    (sa : Android.State) (ea ea2 : Android.InitEnv)
    (sw : Windows.State) (ew ew2 : Windows.InitEnv)
    (hda : sa.g_device ≠ 0) (hdw : sw.g_wgpu_device ≠ 0) :
    (Android.webgpu_rend_init sa ea = .ok ⟨sa, sa.g_device, []⟩ ∧
     Android.webgpu_rend_init sa ea2 = .ok ⟨sa, sa.g_device, []⟩ ∧
     ∀ (s0 s1 : Android.State) (e1 e2 : Android.InitEnv) (d : Ptr) (c : List Android.Call),
       Android.webgpu_rend_init s0 e1 = .ok ⟨s1, d, c⟩ → d ≠ 0 →
       Android.webgpu_rend_init s1 e2 = .ok ⟨s1, d, []⟩) ∧
    (Windows.webgpu_rend_init sw ew = .ok ⟨sw, sw.g_wgpu_device, []⟩ ∧
     Windows.webgpu_rend_init sw ew2 = .ok ⟨sw, sw.g_wgpu_device, []⟩ ∧
     ∀ (s0 s1 : Windows.State) (e1 e2 : Windows.InitEnv) (d : Ptr) (c : List Windows.Call),
       Windows.webgpu_rend_init s0 e1 = .ok ⟨s1, d, c⟩ → d ≠ 0 →
       Windows.webgpu_rend_init s1 e2 = .ok ⟨s1, d, []⟩) := by
  refine ⟨⟨Android.android_init_with_device ea hda, Android.android_init_with_device ea2 hda, ?_⟩,
    ⟨Windows.windows_init_with_device ew hdw, Windows.windows_init_with_device ew2 hdw, ?_⟩⟩
  · intro s0 s1 e1 e2 d c h hd
    have hret : d = s1.g_device := Android.android_init_ret_eq_device h
    rw [hret]
    exact Android.android_init_with_device e2 (hret ▸ hd)
  · intro s0 s1 e1 e2 d c h hd
    have hret : d = s1.g_wgpu_device := Windows.windows_init_ret_eq_device h
    rw [hret]
    exact Windows.windows_init_with_device e2 (hret ▸ hd)

/-- C5 on the sample runs: the first `init` from the load-time state returns device 8192
(8194 on the shared-handle platform); a second `init`, under answers that would yield
device 12288, returns the first device again without any call. -/
theorem init_is_idempotent_witness :
    Android.sample_state0.g_device ≠ 0 ∧ Windows.sample_state0.g_wgpu_device ≠ 0 ∧
    (∃ c, Android.webgpu_rend_init Android.initial_state Android.sample_init_env =
      .ok ⟨Android.sample_state0, 8192, c⟩) ∧
    Android.webgpu_rend_init Android.sample_state0 Android.other_init_env =
      .ok ⟨Android.sample_state0, 8192, []⟩ ∧
    (∃ c, Windows.webgpu_rend_init Windows.sample_state_registered Windows.sample_init_env =
      .ok ⟨Windows.sample_state0, 8194, c⟩) ∧
    Windows.webgpu_rend_init Windows.sample_state0 Windows.other_init_env =
      .ok ⟨Windows.sample_state0, 8194, []⟩ :=
  ⟨by decide, by decide, ⟨_, rfl⟩,
   (init_is_idempotent Android.sample_state0 Android.sample_init_env Android.other_init_env
      Windows.sample_state0 Windows.sample_init_env Windows.other_init_env
      (by decide) (by decide)).1.2.1,
   ⟨_, rfl⟩,
   (init_is_idempotent Android.sample_state0 Android.sample_init_env Android.other_init_env
      Windows.sample_state0 Windows.sample_init_env Windows.other_init_env
      (by decide) (by decide)).2.2.1⟩

/-- C6, the code at a failing device creation on the window-surface platform. From the
load-time state (no device), with one adapter enumerated and `CreateDevice` returning no
device, `webgpu_rend_init` does not return null: it goes on to `g_device.GetQueue()` on the
null device.  The shared-handle platform tests `cDevice` and returns null there. -/
theorem android_init_device_failure_faults :
    Android.initial_state.g_device = 0 ∧
    Android.device_failure_env.adapters = [⟨1, AdapterType.IntegratedGPU⟩] ∧
    Android.device_failure_env.createDevice ⟨1, AdapterType.IntegratedGPU⟩ = 0 ∧
    Android.webgpu_rend_init Android.initial_state Android.device_failure_env =
      .error Fault.nullDevice ∧
    (∃ c, Windows.webgpu_rend_init Windows.initial_state
      ⟨4096, [⟨1, AdapterType.IntegratedGPU⟩], fun _ => 0, 0⟩ =
      .ok ⟨{ Windows.initial_state with g_dawn_instance := 4096 }, 0, c⟩) :=
  ⟨rfl, rfl, rfl, rfl, _, rfl⟩

/-! ## Adapter selection -/

namespace Windows

theorem chooseAdapterLoop_fst (chosen : Adapter) (l : List Adapter) :
    (chooseAdapterLoop chosen l).1 =
      (l.find? (fun a => decide (a.adapterType = AdapterType.DiscreteGPU))).getD chosen := by
  induction l with
  | nil => rfl
  | cons a rest ih =>
    unfold chooseAdapterLoop
    by_cases h : a.adapterType = AdapterType.DiscreteGPU
    · simp [h]
    · simp [h, ih]

theorem chooseAdapterLoop_calls (chosen : Adapter) (l : List Adapter) (c : Call)
    (hc : c ∈ (chooseAdapterLoop chosen l).2) : ∃ a, c = Call.AdapterGetInfo a := by
  induction l with
  | nil => simp [chooseAdapterLoop] at hc
  | cons a rest ih =>
    unfold chooseAdapterLoop at hc
    by_cases h : a.adapterType = AdapterType.DiscreteGPU
    · simp only [h, if_true, List.mem_singleton] at hc
      exact ⟨_, hc⟩
    · simp only [h, if_false, List.mem_cons] at hc
      rcases hc with hc | hc
      · exact ⟨_, hc⟩
      · exact ih hc

/-- The loop of the source computes the policy of the specification. -/
theorem chooseAdapterLoop_eq_policy (first : Adapter) (rest : List Adapter) :
    some (chooseAdapterLoop first (first :: rest)).1 =
      prefer_discrete_else_first (first :: rest) := by
  rw [chooseAdapterLoop_fst]
  unfold prefer_discrete_else_first
  cases (first :: rest).find? (fun a => decide (a.adapterType = AdapterType.DiscreteGPU)) <;>
    rfl

end Windows

/-- C7. With no device yet and a non-empty adapter list, the shared-handle `init` asks
exactly the adapter picked by "prefer discrete, else first" for the device (every
`CreateDevice` call it issues is on that adapter, and the device global afterwards is what
that adapter answered); the window-surface `init` asks the first adapter of the list: what
that adapter answers is the device returned and stored, and a null answer is the
null-device fault. -/
theorem adapter_selection_policy
    (sw : Windows.State) (ew : Windows.InitEnv) (firstw : Adapter) (restw : List Adapter)
    (sa : Android.State) (ea : Android.InitEnv) (firsta : Adapter) (resta : List Adapter)
    (hdw : sw.g_wgpu_device = 0) (hlw : ew.adapters = firstw :: restw)
    (hda : sa.g_device = 0) (hla : ea.adapters = firsta :: resta) :
    (∃ chosen : Adapter,
      prefer_discrete_else_first ew.adapters = some chosen ∧
      chosen ∈ ew.adapters ∧
      (chosen.adapterType ≠ AdapterType.DiscreteGPU →
        chosen = firstw ∧ ∀ a ∈ ew.adapters, a.adapterType ≠ AdapterType.DiscreteGPU) ∧
      (∀ a : Ptr, Windows.Call.AdapterCreateDevice a ∈ (Windows.InitializeDawn sw ew).calls ↔
        a = chosen.handle) ∧
      (Windows.InitializeDawn sw ew).state.g_wgpu_device = ew.createDevice chosen) ∧
    (prefer_discrete_else_first [firsta] = some firsta ∧
     (ea.createDevice firsta = 0 →
       Android.webgpu_rend_init sa ea = .error Fault.nullDevice) ∧
     (ea.createDevice firsta ≠ 0 →
       ∃ (s1 : Android.State) (c : List Android.Call),
         Android.webgpu_rend_init sa ea = .ok ⟨s1, ea.createDevice firsta, c⟩ ∧
         s1.g_device = ea.createDevice firsta ∧
         ∀ a : Ptr, Android.Call.AdapterCreateDevice a ∈ c ↔ a = firsta.handle)) := by
  constructor
  · refine ⟨(Windows.chooseAdapterLoop firstw (firstw :: restw)).1, ?_, ?_, ?_, ?_, ?_⟩
    · rw [hlw]; exact (Windows.chooseAdapterLoop_eq_policy firstw restw).symm
    · rw [hlw, Windows.chooseAdapterLoop_fst]
      cases hf : (firstw :: restw).find?
          (fun a => decide (a.adapterType = AdapterType.DiscreteGPU)) with
      | none => simp
      | some a => exact List.mem_of_find?_eq_some hf
    · rw [hlw, Windows.chooseAdapterLoop_fst]
      cases hf : (firstw :: restw).find?
          (fun a => decide (a.adapterType = AdapterType.DiscreteGPU)) with
      | none =>
        intro _
        refine ⟨rfl, fun a ha => ?_⟩
        have := List.find?_eq_none.1 hf a ha
        simpa using this
      | some a =>
        intro hne
        have := List.find?_some hf
        exact absurd (by simpa using this) hne
    · intro a
      have hloop : Windows.Call.AdapterCreateDevice a ∉
          (Windows.chooseAdapterLoop firstw (firstw :: restw)).2 := by
        intro hmem
        obtain ⟨x, hx⟩ := Windows.chooseAdapterLoop_calls _ _ _ hmem
        cases hx
      unfold Windows.InitializeDawn
      rw [if_neg (by simpa using hdw)]
      simp only [hlw]
      by_cases hc : ew.createDevice (Windows.chooseAdapterLoop firstw (firstw :: restw)).1 = 0
      · rw [if_pos hc]
        by_cases hi : sw.g_dawn_instance = 0 <;> simp [hi, hloop]
      · rw [if_neg hc]
        by_cases hi : sw.g_dawn_instance = 0 <;> simp [hi, hloop]
    · unfold Windows.InitializeDawn
      rw [if_neg (by simpa using hdw)]
      simp only [hlw]
      by_cases hc : ew.createDevice (Windows.chooseAdapterLoop firstw (firstw :: restw)).1 = 0
      · rw [if_pos hc, hc]; exact hdw
      · rw [if_neg hc]
  · refine ⟨?_, ?_, ?_⟩
    · unfold prefer_discrete_else_first
      by_cases h : firsta.adapterType = AdapterType.DiscreteGPU <;> simp [h]
    · intro h0
      unfold Android.webgpu_rend_init
      rw [if_neg (by simpa using hda)]
      simp only [hla, h0, if_true]
    · intro hne
      unfold Android.webgpu_rend_init
      rw [if_neg (by simpa using hda)]
      simp only [hla, if_neg hne]
      refine ⟨_, _, rfl, rfl, ?_⟩
      intro a
      by_cases hi : sa.g_instance = 0 <;> simp [hi]

/-- C7 on the sample answers: of the adapters [1: integrated, 2: discrete] the shared-handle
`init` picks adapter 2 and stores the device 8194 it answers; the window-surface `init`
takes the only adapter, 1, and returns its device 8192. -/
theorem adapter_selection_policy_witness :
    Windows.initial_state.g_wgpu_device = 0 ∧
    Windows.sample_init_env.adapters =
      [⟨1, AdapterType.IntegratedGPU⟩, ⟨2, AdapterType.DiscreteGPU⟩] ∧
    Android.initial_state.g_device = 0 ∧
    Android.sample_init_env.adapters = [⟨1, AdapterType.IntegratedGPU⟩] ∧
    (∃ chosen : Adapter,
      prefer_discrete_else_first Windows.sample_init_env.adapters = some chosen ∧
      chosen.handle = 2 ∧
      (∀ a : Ptr, Windows.Call.AdapterCreateDevice a ∈
        (Windows.InitializeDawn Windows.initial_state Windows.sample_init_env).calls ↔
        a = chosen.handle) ∧
      (Windows.InitializeDawn Windows.initial_state Windows.sample_init_env).state.g_wgpu_device
        = 8194) ∧
    (∃ (s1 : Android.State) (c : List Android.Call),
      Android.webgpu_rend_init Android.initial_state Android.sample_init_env =
        .ok ⟨s1, 8192, c⟩ ∧
      ∀ a : Ptr, Android.Call.AdapterCreateDevice a ∈ c ↔ a = 1) := by
  have key := adapter_selection_policy Windows.initial_state Windows.sample_init_env
    ⟨1, AdapterType.IntegratedGPU⟩ [⟨2, AdapterType.DiscreteGPU⟩]
    Android.initial_state Android.sample_init_env ⟨1, AdapterType.IntegratedGPU⟩ []
    rfl rfl rfl rfl
  refine ⟨rfl, rfl, rfl, rfl, ?_, ?_⟩
  · obtain ⟨chosen, hpol, _, _, hcalls, hdev⟩ := key.1
    have hch : chosen = ⟨2, AdapterType.DiscreteGPU⟩ :=
      Option.some.inj (hpol.symm.trans rfl)
    refine ⟨chosen, hpol, by rw [hch], hcalls, ?_⟩
    rw [hdev, hch]; rfl
  · obtain ⟨s1, c, h1, _, h3⟩ := key.2.2.2 (by decide)
    exact ⟨s1, c, h1, h3⟩

/-! ## No device, no registry -/

/-- States without a device. In every reachable state without a device, on both platforms:
the registry is empty; `create_texture` returns null, issues no call (none to the host) and
leaves the globals as they were; every accessor returns its sentinel; `present_texture`
issues no call (no submission); and every exported call other than `init` (and, on the
shared-handle platform, other than the plugin registration) issues no call at all and
changes nothing. -/
theorem no_device_empty_registry
    (sa : Android.State) (sw : Windows.State)
    (hra : Android.Reachable sa) (hrw : Windows.Reachable sw)
    (hda : sa.g_device = 0) (hdw : sw.g_wgpu_device = 0) :
    (sa.g_textures = [] ∧
     (∀ (env : Android.CreateEnv) (width height : Int),
       Android.webgpu_rend_create_texture sa env width height = .ok ⟨sa, 0, []⟩) ∧
     (∀ t : Ptr,
       Android.webgpu_rend_get_texture_id sa t = .ok ⟨sa, -1, []⟩ ∧
       Android.webgpu_rend_get_wgpu_texture sa t = .ok ⟨sa, 0, []⟩ ∧
       Android.webgpu_rend_get_wgpu_texture_view sa t = .ok ⟨sa, 0, []⟩) ∧
     (∀ (env : Android.PresentEnv) (t : Ptr),
       Android.webgpu_rend_present_texture sa env t = .ok ⟨sa, (), []⟩) ∧
     (∀ op : Android.Op, (∀ env, op ≠ Android.Op.init env) →
       Android.run sa op = .ok (sa, []))) ∧
    (sw.g_textures = [] ∧
     (∀ (env : Windows.CreateEnv) (width height : Int),
       Windows.webgpu_rend_create_texture sw env width height = .ok ⟨sw, 0, []⟩) ∧
     (∀ t : Ptr,
       Windows.webgpu_rend_get_texture_id sw t = .ok ⟨sw, -1, []⟩ ∧
       Windows.webgpu_rend_get_wgpu_texture sw t = .ok ⟨sw, 0, []⟩ ∧
       Windows.webgpu_rend_get_wgpu_texture_view sw t = .ok ⟨sw, 0, []⟩) ∧
     (∀ t : Ptr, Windows.webgpu_rend_present_texture sw t = .ok ⟨sw, (), []⟩) ∧
     (∀ op : Windows.Op, (∀ env, op ≠ Windows.Op.init env) →
       (∀ env, op ≠ Windows.Op.register_with_registrar env) →
       Windows.run sw op = .ok (sw, []))) := by
  have hea : sa.g_textures = [] := (Android.android_reachable_inv hra).1 hda
  have hew : sw.g_textures = [] := Windows.windows_reachable_inv hrw hdw
  have hna : ∀ t : Ptr, StdMap.find sa.g_textures t = none := fun t => by rw [hea]; rfl
  have hnw : ∀ t : Ptr, StdMap.find sw.g_textures t = none := fun t => by rw [hew]; rfl
  have hca : ∀ (env : Android.CreateEnv) (width height : Int),
      Android.webgpu_rend_create_texture sa env width height = .ok ⟨sa, 0, []⟩ := by
    intro env width height
    unfold Android.webgpu_rend_create_texture
    rw [if_pos hda]
  have hcw : ∀ (env : Windows.CreateEnv) (width height : Int),
      Windows.webgpu_rend_create_texture sw env width height = .ok ⟨sw, 0, []⟩ := by
    intro env width height
    unfold Windows.webgpu_rend_create_texture
    rw [if_pos hdw]
  refine ⟨⟨hea, hca, fun t => ⟨Android.android_get_texture_id_unknown (hna t),
      Android.android_get_wgpu_texture_unknown (hna t),
      Android.android_get_wgpu_texture_view_unknown (hna t)⟩,
      fun env t => Android.android_present_texture_unknown env (hna t), ?_⟩,
    ⟨hew, hcw, fun t => ⟨Windows.windows_get_texture_id_unknown (hnw t),
      Windows.windows_get_wgpu_texture_unknown (hnw t),
      Windows.windows_get_wgpu_texture_view_unknown (hnw t)⟩,
      fun t => Windows.windows_present_texture_unknown (hnw t), ?_⟩⟩
  · intro op hop
    cases op with
    | get_proc_address proc => rfl
    | init env => exact absurd rfl (hop env)
    | create_texture env w h => simp only [Android.run, hca, Android.effect]
    | get_texture_id t =>
      simp only [Android.run, Android.android_get_texture_id_unknown (hna t), Android.effect]
    | get_wgpu_texture t =>
      simp only [Android.run, Android.android_get_wgpu_texture_unknown (hna t),
        Android.effect]
    | get_wgpu_texture_view t =>
      simp only [Android.run, Android.android_get_wgpu_texture_view_unknown (hna t),
        Android.effect]
    | texture_begin_access t => rfl
    | texture_end_access t => rfl
    | present_texture env t =>
      simp only [Android.run, Android.android_present_texture_unknown env (hna t),
        Android.effect]
    | dispose_texture t =>
      simp only [Android.run, Android.android_dispose_texture_unknown (hna t),
        Android.effect]
  · intro op hop hreg
    cases op with
    | register_with_registrar env => exact absurd rfl (hreg env)
    | get_proc_address proc => rfl
    | init env => exact absurd rfl (hop env)
    | create_texture env w h => simp only [Windows.run, hcw, Windows.effect]
    | get_texture_id t =>
      simp only [Windows.run, Windows.windows_get_texture_id_unknown (hnw t), Windows.effect]
    | get_wgpu_texture t =>
      simp only [Windows.run, Windows.windows_get_wgpu_texture_unknown (hnw t),
        Windows.effect]
    | get_wgpu_texture_view t =>
      simp only [Windows.run, Windows.windows_get_wgpu_texture_view_unknown (hnw t),
        Windows.effect]
    | texture_begin_access t =>
      simp only [Windows.run, Windows.windows_texture_begin_access_unknown (hnw t),
        Windows.effect]
    | texture_end_access t =>
      simp only [Windows.run, Windows.windows_texture_end_access_unknown (hnw t),
        Windows.effect]
    | present_texture t =>
      simp only [Windows.run, Windows.windows_present_texture_unknown (hnw t),
        Windows.effect]
    | dispose_texture t =>
      simp only [Windows.run, Windows.windows_dispose_texture_unknown (hnw t),
        Windows.effect]

namespace Android

theorem android_sample_state_failed_init_reachable :
    Reachable sample_state_failed_init :=
  Reachable.call (Op.init ⟨4096, [], fun _ => 0, 0⟩) Reachable.initial
    (show (4096 : Nat) ≠ 0 by decide) rfl

end Android

/-- The same on two reachable states without a device: on the window-surface platform
after an initialisation that found no adapter, on the shared-handle platform after the
plugin registration alone. -/
theorem no_device_empty_registry_witness :
    Android.Reachable Android.sample_state_failed_init ∧
    Windows.Reachable Windows.sample_state_registered ∧
    Android.sample_state_failed_init.g_device = 0 ∧
    Windows.sample_state_registered.g_wgpu_device = 0 ∧
    Android.sample_state_failed_init.g_textures = [] ∧
    Android.webgpu_rend_create_texture Android.sample_state_failed_init
      Android.sample_create_env 256 256 = .ok ⟨Android.sample_state_failed_init, 0, []⟩ ∧
    Windows.webgpu_rend_create_texture Windows.sample_state_registered
      Windows.sample_create_env 256 256 = .ok ⟨Windows.sample_state_registered, 0, []⟩ ∧
    Windows.webgpu_rend_present_texture Windows.sample_state_registered 16384 =
      .ok ⟨Windows.sample_state_registered, (), []⟩ := by
  have key := no_device_empty_registry Android.sample_state_failed_init
    Windows.sample_state_registered Android.android_sample_state_failed_init_reachable
    Windows.windows_sample_state_registered_reachable rfl rfl
  exact ⟨Android.android_sample_state_failed_init_reachable,
    Windows.windows_sample_state_registered_reachable, rfl, rfl, key.1.1,
    key.1.2.1 _ _ _, key.2.2.1 _ _ _, key.2.2.2.2.1 _⟩

/-- C8, the code at a failing device creation. In the reachable state left by an
initialisation that found no adapter (no device, empty registry), a further call of the
window-surface `init` under which one adapter is enumerated and `CreateDevice` returns no
device does not fail gracefully: it uses the absent device, going on to
`g_device.GetQueue()` on the null handle.  So an exported operation does use an absent
device, against the last clause of the claim; the clauses on `create_texture`, the
accessors and `present_texture` hold (`no_device_empty_registry`). -/
theorem android_init_uses_absent_device :
    Android.Reachable Android.sample_state_failed_init ∧
    Android.sample_state_failed_init.g_device = 0 ∧
    Android.sample_state_failed_init.g_queue = 0 ∧
    Android.sample_state_failed_init.g_textures = [] ∧
    Android.device_failure_env.adapters = [⟨1, AdapterType.IntegratedGPU⟩] ∧
    Android.device_failure_env.createDevice ⟨1, AdapterType.IntegratedGPU⟩ = 0 ∧
    Android.run Android.sample_state_failed_init
      (Android.Op.init Android.device_failure_env) = .error Fault.nullDevice :=
  ⟨Android.android_sample_state_failed_init_reachable, rfl, rfl, rfl, rfl, rfl, rfl⟩

/-! ## Present on the window-surface platform -/

/-- The conversion to `uint32_t` keeps a non-negative value below 2^32 (every non-negative
`int`) as it is. -/
theorem toUint32_of_nonneg {x : Int} (h0 : 0 ≤ x) (h1 : x < 4294967296) :
    (toUint32 x : Int) = x := by
  unfold toUint32
  rw [Int.emod_eq_of_lt h0 h1]
  exact Int.toNat_of_nonneg h0

/-- C9. Window-surface `present_texture` on a live handle of a reachable state.  When the
status of the acquired surface texture is neither `SuccessOptimal` nor `SuccessSuboptimal`,
the only calls are the acquisition and the log line (no submission, no surface present).
Otherwise the calls are, in this order: the acquisition, the creation of one encoder, one
copy from the working texture of the object to the acquired surface texture with extent
(`(uint32_t)width`, `(uint32_t)height`, 1), the finish of the encoder, one submission of
that one command buffer, one surface present.  In both cases the globals, the registry and
the object in it included, are as before; and the extent is (width, height, 1) itself for
non-negative dimensions. -/
theorem android_present_on_live_handle
    (sa : Android.State) (t : Ptr) (obj : Android.AndroidTextureObject)
    (env : Android.PresentEnv)
    (hra : Android.Reachable sa)
    (hl : StdMap.find sa.g_textures t = some (some obj)) :
    (env.status ≠ SurfaceGetCurrentTextureStatus.SuccessOptimal →
     env.status ≠ SurfaceGetCurrentTextureStatus.SuccessSuboptimal →
      Android.webgpu_rend_present_texture sa env t =
        .ok ⟨sa, (), [Android.Call.SurfaceGetCurrentTexture obj.surface,
                      Android.Call.LOGE]⟩) ∧
    (env.status = SurfaceGetCurrentTextureStatus.SuccessOptimal ∨
     env.status = SurfaceGetCurrentTextureStatus.SuccessSuboptimal →
      Android.webgpu_rend_present_texture sa env t =
        .ok ⟨sa, (),
          [Android.Call.SurfaceGetCurrentTexture obj.surface,
           Android.Call.DeviceCreateCommandEncoder sa.g_device,
           Android.Call.CopyTextureToTexture env.encoder obj.working_texture
             env.surface_texture (toUint32 obj.width) (toUint32 obj.height) 1,
           Android.Call.CommandEncoderFinish env.encoder,
           Android.Call.QueueSubmit sa.g_queue [env.command_buffer],
           Android.Call.SurfacePresent obj.surface]⟩) ∧
    (0 ≤ obj.width → obj.width < 4294967296 → 0 ≤ obj.height → obj.height < 4294967296 →
      ((toUint32 obj.width : Int), (toUint32 obj.height : Int)) =
        (obj.width, obj.height)) := by
  have hdev : sa.g_device ≠ 0 := by
    intro h0
    have hempty := (Android.android_reachable_inv hra).1 h0
    rw [hempty] at hl
    cases hl
  refine ⟨?_, ?_, ?_⟩
  · intro h1 h2
    simp only [Android.webgpu_rend_present_texture, StdMap.count_of_find_some hl,
      StdMap.index_of_find_some hl]
    rw [if_neg Nat.one_ne_zero, if_pos ⟨h1, h2⟩]
  · intro hs
    have hnot : ¬ (env.status ≠ SurfaceGetCurrentTextureStatus.SuccessOptimal ∧
        env.status ≠ SurfaceGetCurrentTextureStatus.SuccessSuboptimal) := by
      rintro ⟨h1, h2⟩
      rcases hs with h | h
      · exact h1 h
      · exact h2 h
    simp only [Android.webgpu_rend_present_texture, StdMap.count_of_find_some hl,
      StdMap.index_of_find_some hl]
    rw [if_neg Nat.one_ne_zero, if_neg hnot, if_neg hdev]
  · intro h1 h2 h3 h4
    rw [toUint32_of_nonneg h1 h2, toUint32_of_nonneg h3 h4]

/-- C9 on the 256x256 object of handle 16384: a `Lost` surface yields the acquisition and
the log line only; an optimal one yields acquisition, encoder, copy of extent
(256, 256, 1) from texture 600 to the surface texture 800, finish, submission of command
buffer 820 on queue 8200, present of surface 500. -/
theorem android_present_on_live_handle_witness :
    Android.Reachable Android.sample_state1 ∧
    StdMap.find Android.sample_state1.g_textures 16384 = some (some Android.sample_object) ∧
    Android.webgpu_rend_present_texture Android.sample_state1
      ⟨SurfaceGetCurrentTextureStatus.Lost, 800, 810, 820⟩ 16384 =
      .ok ⟨Android.sample_state1, (),
        [Android.Call.SurfaceGetCurrentTexture 500, Android.Call.LOGE]⟩ ∧
    Android.webgpu_rend_present_texture Android.sample_state1
      ⟨SurfaceGetCurrentTextureStatus.SuccessOptimal, 800, 810, 820⟩ 16384 =
      .ok ⟨Android.sample_state1, (),
        [Android.Call.SurfaceGetCurrentTexture 500,
         Android.Call.DeviceCreateCommandEncoder 8192,
         Android.Call.CopyTextureToTexture 810 600 800 256 256 1,
         Android.Call.CommandEncoderFinish 810,
         Android.Call.QueueSubmit 8200 [820],
         Android.Call.SurfacePresent 500]⟩ :=
  ⟨Android.android_sample_state1_reachable, rfl,
   (android_present_on_live_handle Android.sample_state1 16384 Android.sample_object
      ⟨SurfaceGetCurrentTextureStatus.Lost, 800, 810, 820⟩
      Android.android_sample_state1_reachable rfl).1 (by decide) (by decide),
   (android_present_on_live_handle Android.sample_state1 16384 Android.sample_object
      ⟨SurfaceGetCurrentTextureStatus.SuccessOptimal, 800, 810, 820⟩
      Android.android_sample_state1_reachable rfl).2.1 (Or.inl rfl)⟩

/-! ## Two threads inside `webgpu_rend_init`: the steps against the sequential function -/

namespace Windows

/-- Cut into steps and run by one thread alone, `webgpu_rend_init` does what the function
embedded above does: same globals, same return value, same calls. -/
theorem windows_run_alone_eq_init (env : InitEnv) (s : State) :
    webgpu_rend_init s env =
      .ok ⟨(run_alone env s).g,
           (match (run_alone env s).pc1 with | .returned ret => ret | _ => 0),
           (run_alone env s).calls⟩ := by
  by_cases hd : s.g_wgpu_device ≠ 0
  · have hrun : run_alone env s = ⟨s, none, .returned s.g_wgpu_device, .entry, []⟩ := by
      simp only [run_alone, run_schedule, List.foldl, sched_step, init_step, if_pos hd,
        List.append_nil]
    rw [hrun, windows_init_with_device env hd]
  · have hd0 : s.g_wgpu_device = 0 := by simpa using hd
    cases hads : env.adapters with
    | nil =>
      have hrun : run_alone env s =
          ⟨{ s with g_dawn_instance := env.new_instance }, none, .returned 0, .entry,
           [Call.InstanceCreate env.new_instance] ++
           (if s.g_dawn_instance ≠ 0 then [Call.InstanceDestroy s.g_dawn_instance] else []) ++
           [Call.EnumerateAdapters env.new_instance] ++ [Call.LogError]⟩ := by
        simp only [run_alone, run_schedule, List.foldl, sched_step, init_step, if_neg hd,
          hads, List.append_nil, List.nil_append]
        rw [hd0]
      rw [hrun]
      simp only [webgpu_rend_init, InitializeDawn, if_neg hd, hads]
      simp only [hd0]
    | cons first rest =>
      by_cases hc : env.createDevice (chooseAdapterLoop first (first :: rest)).1 = 0
      · have hrun : run_alone env s =
            ⟨{ s with g_dawn_instance := env.new_instance }, none, .returned 0, .entry,
             [Call.InstanceCreate env.new_instance] ++
             (if s.g_dawn_instance ≠ 0 then [Call.InstanceDestroy s.g_dawn_instance]
              else []) ++
             [Call.EnumerateAdapters env.new_instance] ++
             (chooseAdapterLoop first (first :: rest)).2 ++
             [Call.AdapterCreateDevice (chooseAdapterLoop first (first :: rest)).1.handle] ++
             [Call.LogError]⟩ := by
          simp only [run_alone, run_schedule, List.foldl, sched_step, init_step, if_neg hd,
            hads, hc, if_true, List.append_nil, List.nil_append]
          rw [hd0]
        rw [hrun]
        simp only [webgpu_rend_init, InitializeDawn, if_neg hd, hads, hc, if_true]
        simp only [hd0]
      · have hrun : run_alone env s =
            ⟨{ s with g_dawn_instance := env.new_instance,
                      g_wgpu_device :=
                        env.createDevice (chooseAdapterLoop first (first :: rest)).1,
                      g_wgpu_queue := env.queue },
             none,
             .returned (env.createDevice (chooseAdapterLoop first (first :: rest)).1),
             .entry,
             [Call.InstanceCreate env.new_instance] ++
             (if s.g_dawn_instance ≠ 0 then [Call.InstanceDestroy s.g_dawn_instance]
              else []) ++
             [Call.EnumerateAdapters env.new_instance] ++
             (chooseAdapterLoop first (first :: rest)).2 ++
             [Call.AdapterCreateDevice (chooseAdapterLoop first (first :: rest)).1.handle] ++
             [Call.DeviceGetQueue
               (env.createDevice (chooseAdapterLoop first (first :: rest)).1)]⟩ := by
          simp only [run_alone, run_schedule, List.foldl, sched_step, init_step, if_neg hd,
            hads, hc, if_false, List.append_nil, List.nil_append]
        rw [hrun]
        simp only [webgpu_rend_init, InitializeDawn, if_neg hd, hads, hc, if_false]

end Windows

namespace Android

/-- Cut into steps and run by one thread alone, `webgpu_rend_init` does what the function
embedded above does: same fault, or same globals, same return value, same calls. -/
theorem android_run_alone_eq_init (env : InitEnv) (s : State) :
    webgpu_rend_init s env =
      (match (run_alone env s).pc1 with
       | .returned ret => .ok ⟨(run_alone env s).g, ret, (run_alone env s).calls⟩
       | _ => .error Fault.nullDevice) := by
  by_cases hd : s.g_device ≠ 0
  · have hrun : run_alone env s = ⟨s, none, .returned s.g_device, .entry, []⟩ := by
      simp only [run_alone, run_schedule, List.foldl, sched_step, init_step, if_pos hd,
        List.append_nil]
    rw [hrun, android_init_with_device env hd]
  · have hd0 : s.g_device = 0 := by simpa using hd
    cases hads : env.adapters with
    | nil =>
      have hrun : run_alone env s =
          ⟨{ s with g_instance := env.new_instance }, none, .returned 0, .entry,
           [Call.InstanceCreate env.new_instance] ++
           (if s.g_instance ≠ 0 then [Call.InstanceDestroy s.g_instance] else []) ++
           [Call.EnumerateAdapters env.new_instance] ++ [Call.LOGE]⟩ := by
        simp only [run_alone, run_schedule, List.foldl, sched_step, init_step, if_neg hd,
          hads, List.append_nil, List.nil_append]
      rw [hrun]
      simp only [webgpu_rend_init, if_neg hd, hads]
    | cons first rest =>
      by_cases hc : env.createDevice first = 0
      · have hrun : (run_alone env s).pc1 = .faulted := by
          simp only [run_alone, run_schedule, List.foldl, sched_step, init_step, if_neg hd,
            hads, hc, if_true, List.append_nil, List.nil_append]
        rw [hrun]
        simp only [webgpu_rend_init, if_neg hd, hads, hc, if_true]
      · have hrun : run_alone env s =
            ⟨{ s with g_instance := env.new_instance,
                      g_device := env.createDevice first,
                      g_queue := env.queue },
             none, .returned (env.createDevice first), .entry,
             [Call.InstanceCreate env.new_instance] ++
             (if s.g_instance ≠ 0 then [Call.InstanceDestroy s.g_instance] else []) ++
             [Call.EnumerateAdapters env.new_instance] ++
             [Call.AdapterCreateDevice first.handle] ++
             [Call.DeviceGetQueue (env.createDevice first)]⟩ := by
          simp only [run_alone, run_schedule, List.foldl, sched_step, init_step, if_neg hd,
            hads, hc, if_false, List.append_nil, List.nil_append]
        rw [hrun]
        simp only [webgpu_rend_init, if_neg hd, hads, hc, if_false, List.append_assoc,
          List.singleton_append, List.cons_append, List.nil_append]

end Android

/-- C10, the code under a racing schedule. Shared-handle platform, registered plugin, no
device: two threads enter `webgpu_rend_init`, which takes no lock; both find
`g_wgpu_device` null, both create a device (adapters 2 and 3 each get a `CreateDevice`),
thread 1 returns device 8194 and thread 2 returns device 12288.  Under the same schedule
the window-surface function, which holds `g_mutex` from its first statement to its return,
keeps thread 2 waiting, creates one device and returns 8192 to both. -/
theorem windows_concurrent_init_creates_two_devices :
    Windows.sample_state_registered.g_wgpu_device = 0 ∧
    Windows.run_schedule Windows.sample_init_env Windows.other_init_env
      Windows.sample_state_registered racing_schedule =
      ⟨{ g_d3d_device := 1000, g_texture_registrar := 900, g_dawn_instance := 4100,
         g_wgpu_device := 12288, g_wgpu_queue := 12296, g_textures := [] },
       none, InitPc.returned 8194, InitPc.returned 12288,
       [Windows.Call.InstanceCreate 4096, Windows.Call.EnumerateAdapters 4096,
        Windows.Call.AdapterGetInfo 1, Windows.Call.AdapterGetInfo 2,
        Windows.Call.AdapterCreateDevice 2,
        Windows.Call.InstanceCreate 4100, Windows.Call.InstanceDestroy 4096,
        Windows.Call.EnumerateAdapters 4100, Windows.Call.AdapterGetInfo 3,
        Windows.Call.AdapterCreateDevice 3,
        Windows.Call.DeviceGetQueue 8194, Windows.Call.DeviceGetQueue 12288]⟩ ∧
    Android.initial_state.g_device = 0 ∧
    Android.run_schedule Android.sample_init_env Android.other_init_env
      Android.initial_state racing_schedule =
      ⟨Android.sample_state0, none, InitPc.returned 8192, InitPc.returned 8192,
       [Android.Call.InstanceCreate 4096, Android.Call.EnumerateAdapters 4096,
        Android.Call.AdapterCreateDevice 1, Android.Call.DeviceGetQueue 8192]⟩ :=
  ⟨rfl, rfl, rfl, rfl⟩

namespace Android

theorem android_mutex_inv_initial (s : State) (hs : s.g_device = 0) :
    MutexInv ⟨s, none, .entry, .entry, []⟩ := by
  constructor <;> simp_all [inside, pending]

theorem android_pending_inside {pc : InitPc} (h : pending pc = true) : inside pc = true := by
  cases pc <;> simp_all [pending, inside]

theorem android_create_prefix_count (g : State) (env : InitEnv) :
    List.countP Call.is_create_device
      ([Call.InstanceCreate env.new_instance] ++
       (if g.g_instance ≠ 0 then [Call.InstanceDestroy g.g_instance] else []) ++
       [Call.EnumerateAdapters env.new_instance]) = 0 := by
  by_cases h : g.g_instance ≠ 0
  · rw [if_pos h]; rfl
  · rw [if_neg h]; rfl

/-- A thread inside the guarded body is the holder of the mutex. -/
theorem android_inside_holds1 {w : World State Call}
    (h : MutexInv w) (hin : inside w.pc1 = true) :
    w.mutex = some Thread.T1 ∧ inside w.pc2 = false := by
  cases hm : w.mutex with
  | none => have := (h.free hm).1; rw [hin] at this; cases this
  | some holder =>
    cases holder with
    | T1 => exact ⟨rfl, (h.held1 hm).2⟩
    | T2 => have := (h.held2 hm).2; rw [hin] at this; cases this

theorem android_inside_holds2 {w : World State Call}
    (h : MutexInv w) (hin : inside w.pc2 = true) :
    w.mutex = some Thread.T2 ∧ inside w.pc1 = false := by
  cases hm : w.mutex with
  | none => have := (h.free hm).2; rw [hin] at this; cases this
  | some holder =>
    cases holder with
    | T2 => exact ⟨rfl, (h.held2 hm).2⟩
    | T1 => have := (h.held1 hm).2; rw [hin] at this; cases this

theorem android_step_t1_entry (e1 e2 : InitEnv) (g : State) (mutex : Option Thread)
    (pc2 : InitPc) (calls : List Call)
    (h : MutexInv ⟨g, mutex, .entry, pc2, calls⟩) :
    MutexInv (sched_step e1 e2 ⟨g, mutex, .entry, pc2, calls⟩ Thread.T1) := by
  cases mutex with
  | none =>
    have hout : inside pc2 = false := (h.free rfl).2
    obtain ⟨free, held1, held2, create_dev, assign_dev, finish_dev, ret, count_le,
      count_one⟩ := h
    dsimp only at *
    clear free held1 held2
    have hw : sched_step e1 e2 ⟨g, none, .entry, pc2, calls⟩ Thread.T1 =
        ⟨g, some Thread.T1, .test_device, pc2, calls⟩ := by
      simp only [sched_step, init_step, List.append_nil]
    rw [hw]
    cases pc2 <;> simp [inside] at hout <;>
    constructor <;> dsimp only <;> (try simp_all [inside, pending]) <;>
      (try omega) <;>
      (try (intro r hr; rcases hr with h | h <;> subst h <;> simp_all [inside, pending]))
  | some holder =>
    have hw : sched_step e1 e2 ⟨g, some holder, .entry, pc2, calls⟩ Thread.T1 =
        ⟨g, some holder, .entry, pc2, calls⟩ := by
      simp only [sched_step, init_step, List.append_nil]
    rw [hw]; exact h

theorem android_step_t1_test_device (e1 e2 : InitEnv) (g : State) (mutex : Option Thread)
    (pc2 : InitPc) (calls : List Call)
    (h : MutexInv ⟨g, mutex, .test_device, pc2, calls⟩) :
    MutexInv (sched_step e1 e2 ⟨g, mutex, .test_device, pc2, calls⟩ Thread.T1) := by
  obtain ⟨hm, hout⟩ := android_inside_holds1 h rfl
  dsimp only at hm hout
  subst hm
  obtain ⟨free, held1, held2, create_dev, assign_dev, finish_dev, ret, count_le,
    count_one⟩ := h
  dsimp only at *
  clear free held1 held2
  by_cases hd : g.g_device = 0
  · have hw : sched_step e1 e2 ⟨g, some Thread.T1, .test_device, pc2, calls⟩ Thread.T1 =
        ⟨g, some Thread.T1, .create, pc2, calls⟩ := by
      simp only [sched_step, init_step, hd, ne_eq, not_true_eq_false, if_false,
        List.append_nil]
    rw [hw]
    cases pc2 <;> simp [inside] at hout <;>
    constructor <;> dsimp only <;> (try simp_all [inside, pending]) <;>
      (try omega) <;>
      (try (intro r hr; rcases hr with h | h <;> subst h <;> simp_all [inside, pending]))
  · have hw : sched_step e1 e2 ⟨g, some Thread.T1, .test_device, pc2, calls⟩ Thread.T1 =
        ⟨g, none, .returned g.g_device, pc2, calls⟩ := by
      simp only [sched_step, init_step, hd, ne_eq, not_false_eq_true, if_true,
        List.append_nil]
    rw [hw]
    cases pc2 <;> simp [inside] at hout <;>
    constructor <;> dsimp only <;> (try simp_all [inside, pending]) <;>
      (try omega) <;>
      (try (intro r hr; rcases hr with h | h <;> subst h <;> simp_all [inside, pending]))

theorem android_step_t1_create (e1 e2 : InitEnv) (g : State) (mutex : Option Thread)
    (pc2 : InitPc) (calls : List Call)
    (h : MutexInv ⟨g, mutex, .create, pc2, calls⟩) :
    MutexInv (sched_step e1 e2 ⟨g, mutex, .create, pc2, calls⟩ Thread.T1) := by
  obtain ⟨hm, hout⟩ := android_inside_holds1 h rfl
  dsimp only at hm hout
  subst hm
  obtain ⟨free, held1, held2, create_dev, assign_dev, finish_dev, ret, count_le,
    count_one⟩ := h
  dsimp only at *
  clear free held1 held2
  have hdev : g.g_device = 0 := create_dev (Or.inl rfl)
  have hzero : List.countP Call.is_create_device calls = 0 := by
    by_contra hne
    have h1 : List.countP Call.is_create_device calls = 1 := by omega
    rcases count_one h1 with h | h | h
    · exact h hdev
    · simp [pending] at h
    · have := android_pending_inside h
      rw [hout] at this; cases this
  cases hads : e1.adapters with
  | nil =>
    have hw : sched_step e1 e2 ⟨g, some Thread.T1, .create, pc2, calls⟩ Thread.T1 =
        ⟨{ g with g_instance := e1.new_instance }, none, .returned 0, pc2, (calls ++ (([Call.InstanceCreate e1.new_instance] ++
          (if g.g_instance ≠ 0 then [Call.InstanceDestroy g.g_instance] else []) ++
          [Call.EnumerateAdapters e1.new_instance] ++ [Call.LOGE])))⟩ := by
      simp only [sched_step, init_step, hads]
    have hcnt : List.countP Call.is_create_device (calls ++ (([Call.InstanceCreate e1.new_instance] ++
          (if g.g_instance ≠ 0 then [Call.InstanceDestroy g.g_instance] else []) ++
          [Call.EnumerateAdapters e1.new_instance] ++ [Call.LOGE]))) = 0 := by
      rw [List.countP_append, List.countP_append, android_create_prefix_count, hzero]
      rfl
    rw [hw]
    cases pc2 <;> simp [inside] at hout <;>
    constructor <;> dsimp only <;> (try rw [hcnt]) <;> (try simp_all [inside, pending]) <;>
      (try omega) <;>
      (try (intro r hr; rcases hr with h | h <;> subst h <;> simp_all [inside, pending]))
  | cons adapter rest =>
    have hw : sched_step e1 e2 ⟨g, some Thread.T1, .create, pc2, calls⟩ Thread.T1 =
        ⟨{ g with g_instance := e1.new_instance }, some Thread.T1, (.assign (e1.createDevice adapter)), pc2, (calls ++ (([Call.InstanceCreate e1.new_instance] ++
          (if g.g_instance ≠ 0 then [Call.InstanceDestroy g.g_instance] else []) ++
          [Call.EnumerateAdapters e1.new_instance] ++ [Call.AdapterCreateDevice adapter.handle])))⟩ := by
      simp only [sched_step, init_step, hads]
    have hcnt : List.countP Call.is_create_device (calls ++ (([Call.InstanceCreate e1.new_instance] ++
          (if g.g_instance ≠ 0 then [Call.InstanceDestroy g.g_instance] else []) ++
          [Call.EnumerateAdapters e1.new_instance] ++ [Call.AdapterCreateDevice adapter.handle]))) = 1 := by
      rw [List.countP_append, List.countP_append, android_create_prefix_count, hzero]
      rfl
    rw [hw]
    cases pc2 <;> simp [inside] at hout <;>
    constructor <;> dsimp only <;> (try rw [hcnt]) <;> (try simp_all [inside, pending]) <;>
      (try omega) <;>
      (try (intro r hr; rcases hr with h | h <;> subst h <;> simp_all [inside, pending]))

theorem android_step_t1_assign (e1 e2 : InitEnv) (g : State) (mutex : Option Thread)
    (pc2 : InitPc) (calls : List Call) (c : Ptr)
    (h : MutexInv ⟨g, mutex, (.assign c), pc2, calls⟩) :
    MutexInv (sched_step e1 e2 ⟨g, mutex, (.assign c), pc2, calls⟩ Thread.T1) := by
  obtain ⟨hm, hout⟩ := android_inside_holds1 h rfl
  dsimp only at hm hout
  subst hm
  obtain ⟨free, held1, held2, create_dev, assign_dev, finish_dev, ret, count_le,
    count_one⟩ := h
  dsimp only at *
  clear free held1 held2
  have hdev : g.g_device = 0 := assign_dev c (Or.inl rfl)
  have hw : sched_step e1 e2 ⟨g, some Thread.T1, (.assign c), pc2, calls⟩ Thread.T1 =
      ⟨{ g with g_device := c }, some Thread.T1, .get_queue, pc2, calls⟩ := by
    simp only [sched_step, init_step, List.append_nil]
  rw [hw]
  cases pc2 <;> simp [inside] at hout <;>
  constructor <;> dsimp only <;> (try simp_all [inside, pending]) <;>
    (try omega) <;>
    (try (intro r hr; rcases hr with h | h <;> subst h <;> simp_all [inside, pending]))

theorem android_step_t1_get_queue (e1 e2 : InitEnv) (g : State) (mutex : Option Thread)
    (pc2 : InitPc) (calls : List Call)
    (h : MutexInv ⟨g, mutex, .get_queue, pc2, calls⟩) :
    MutexInv (sched_step e1 e2 ⟨g, mutex, .get_queue, pc2, calls⟩ Thread.T1) := by
  obtain ⟨hm, hout⟩ := android_inside_holds1 h rfl
  dsimp only at hm hout
  subst hm
  obtain ⟨free, held1, held2, create_dev, assign_dev, finish_dev, ret, count_le,
    count_one⟩ := h
  dsimp only at *
  clear free held1 held2
  by_cases hd : g.g_device = 0
  · have hw : sched_step e1 e2 ⟨g, some Thread.T1, .get_queue, pc2, calls⟩ Thread.T1 =
        ⟨g, some Thread.T1, .faulted, pc2, calls⟩ := by
      simp only [sched_step, init_step, hd, if_true, List.append_nil]
    rw [hw]
    cases pc2 <;> simp [inside] at hout <;>
    constructor <;> dsimp only <;> (try simp_all [inside, pending]) <;>
      (try omega) <;>
      (try (intro r hr; rcases hr with h | h <;> subst h <;> simp_all [inside, pending]))
  · have hw : sched_step e1 e2 ⟨g, some Thread.T1, .get_queue, pc2, calls⟩ Thread.T1 =
        ⟨{ g with g_queue := e1.queue }, some Thread.T1, .finish, pc2, (calls ++ [Call.DeviceGetQueue g.g_device])⟩ := by
      simp only [sched_step, init_step, hd, if_false]
    have hcnt : List.countP Call.is_create_device (calls ++ [Call.DeviceGetQueue g.g_device]) =
        List.countP Call.is_create_device calls := by
      rw [List.countP_append]; rfl
    rw [hw]
    cases pc2 <;> simp [inside] at hout <;>
    constructor <;> dsimp only <;> (try rw [hcnt]) <;> (try simp_all [inside, pending]) <;>
      (try omega) <;>
      (try (intro r hr; rcases hr with h | h <;> subst h <;> simp_all [inside, pending]))

theorem android_step_t1_finish (e1 e2 : InitEnv) (g : State) (mutex : Option Thread)
    (pc2 : InitPc) (calls : List Call)
    (h : MutexInv ⟨g, mutex, .finish, pc2, calls⟩) :
    MutexInv (sched_step e1 e2 ⟨g, mutex, .finish, pc2, calls⟩ Thread.T1) := by
  obtain ⟨hm, hout⟩ := android_inside_holds1 h rfl
  dsimp only at hm hout
  subst hm
  obtain ⟨free, held1, held2, create_dev, assign_dev, finish_dev, ret, count_le,
    count_one⟩ := h
  dsimp only at *
  clear free held1 held2
  have hdev : g.g_device ≠ 0 := finish_dev (Or.inl rfl)
  have hw : sched_step e1 e2 ⟨g, some Thread.T1, .finish, pc2, calls⟩ Thread.T1 =
      ⟨g, none, .returned g.g_device, pc2, calls⟩ := by
    simp only [sched_step, init_step, List.append_nil]
  rw [hw]
  cases pc2 <;> simp [inside] at hout <;>
  constructor <;> dsimp only <;> (try simp_all [inside, pending]) <;>
    (try omega) <;>
    (try (intro r hr; rcases hr with h | h <;> subst h <;> simp_all [inside, pending]))

theorem android_step_t2_entry (e1 e2 : InitEnv) (g : State) (mutex : Option Thread)
    (pc1 : InitPc) (calls : List Call)
    (h : MutexInv ⟨g, mutex, pc1, .entry, calls⟩) :
    MutexInv (sched_step e1 e2 ⟨g, mutex, pc1, .entry, calls⟩ Thread.T2) := by
  cases mutex with
  | none =>
    have hout : inside pc1 = false := (h.free rfl).1
    obtain ⟨free, held1, held2, create_dev, assign_dev, finish_dev, ret, count_le,
      count_one⟩ := h
    dsimp only at *
    clear free held1 held2
    have hw : sched_step e1 e2 ⟨g, none, pc1, .entry, calls⟩ Thread.T2 =
        ⟨g, some Thread.T2, pc1, .test_device, calls⟩ := by
      simp only [sched_step, init_step, List.append_nil]
    rw [hw]
    cases pc1 <;> simp [inside] at hout <;>
    constructor <;> dsimp only <;> (try simp_all [inside, pending]) <;>
      (try omega) <;>
      (try (intro r hr; rcases hr with h | h <;> subst h <;> simp_all [inside, pending]))
  | some holder =>
    have hw : sched_step e1 e2 ⟨g, some holder, pc1, .entry, calls⟩ Thread.T2 =
        ⟨g, some holder, pc1, .entry, calls⟩ := by
      simp only [sched_step, init_step, List.append_nil]
    rw [hw]; exact h

theorem android_step_t2_test_device (e1 e2 : InitEnv) (g : State) (mutex : Option Thread)
    (pc1 : InitPc) (calls : List Call)
    (h : MutexInv ⟨g, mutex, pc1, .test_device, calls⟩) :
    MutexInv (sched_step e1 e2 ⟨g, mutex, pc1, .test_device, calls⟩ Thread.T2) := by
  obtain ⟨hm, hout⟩ := android_inside_holds2 h rfl
  dsimp only at hm hout
  subst hm
  obtain ⟨free, held1, held2, create_dev, assign_dev, finish_dev, ret, count_le,
    count_one⟩ := h
  dsimp only at *
  clear free held1 held2
  by_cases hd : g.g_device = 0
  · have hw : sched_step e1 e2 ⟨g, some Thread.T2, pc1, .test_device, calls⟩ Thread.T2 =
        ⟨g, some Thread.T2, pc1, .create, calls⟩ := by
      simp only [sched_step, init_step, hd, ne_eq, not_true_eq_false, if_false,
        List.append_nil]
    rw [hw]
    cases pc1 <;> simp [inside] at hout <;>
    constructor <;> dsimp only <;> (try simp_all [inside, pending]) <;>
      (try omega) <;>
      (try (intro r hr; rcases hr with h | h <;> subst h <;> simp_all [inside, pending]))
  · have hw : sched_step e1 e2 ⟨g, some Thread.T2, pc1, .test_device, calls⟩ Thread.T2 =
        ⟨g, none, pc1, .returned g.g_device, calls⟩ := by
      simp only [sched_step, init_step, hd, ne_eq, not_false_eq_true, if_true,
        List.append_nil]
    rw [hw]
    cases pc1 <;> simp [inside] at hout <;>
    constructor <;> dsimp only <;> (try simp_all [inside, pending]) <;>
      (try omega) <;>
      (try (intro r hr; rcases hr with h | h <;> subst h <;> simp_all [inside, pending]))

theorem android_step_t2_create (e1 e2 : InitEnv) (g : State) (mutex : Option Thread)
    (pc1 : InitPc) (calls : List Call)
    (h : MutexInv ⟨g, mutex, pc1, .create, calls⟩) :
    MutexInv (sched_step e1 e2 ⟨g, mutex, pc1, .create, calls⟩ Thread.T2) := by
  obtain ⟨hm, hout⟩ := android_inside_holds2 h rfl
  dsimp only at hm hout
  subst hm
  obtain ⟨free, held1, held2, create_dev, assign_dev, finish_dev, ret, count_le,
    count_one⟩ := h
  dsimp only at *
  clear free held1 held2
  have hdev : g.g_device = 0 := create_dev (Or.inr rfl)
  have hzero : List.countP Call.is_create_device calls = 0 := by
    by_contra hne
    have h1 : List.countP Call.is_create_device calls = 1 := by omega
    rcases count_one h1 with h | h | h
    · exact h hdev
    · have := android_pending_inside h
      rw [hout] at this; cases this
    · simp [pending] at h
  cases hads : e2.adapters with
  | nil =>
    have hw : sched_step e1 e2 ⟨g, some Thread.T2, pc1, .create, calls⟩ Thread.T2 =
        ⟨{ g with g_instance := e2.new_instance }, none, pc1, .returned 0, (calls ++ (([Call.InstanceCreate e2.new_instance] ++
          (if g.g_instance ≠ 0 then [Call.InstanceDestroy g.g_instance] else []) ++
          [Call.EnumerateAdapters e2.new_instance] ++ [Call.LOGE])))⟩ := by
      simp only [sched_step, init_step, hads]
    have hcnt : List.countP Call.is_create_device (calls ++ (([Call.InstanceCreate e2.new_instance] ++
          (if g.g_instance ≠ 0 then [Call.InstanceDestroy g.g_instance] else []) ++
          [Call.EnumerateAdapters e2.new_instance] ++ [Call.LOGE]))) = 0 := by
      rw [List.countP_append, List.countP_append, android_create_prefix_count, hzero]
      rfl
    rw [hw]
    cases pc1 <;> simp [inside] at hout <;>
    constructor <;> dsimp only <;> (try rw [hcnt]) <;> (try simp_all [inside, pending]) <;>
      (try omega) <;>
      (try (intro r hr; rcases hr with h | h <;> subst h <;> simp_all [inside, pending]))
  | cons adapter rest =>
    have hw : sched_step e1 e2 ⟨g, some Thread.T2, pc1, .create, calls⟩ Thread.T2 =
        ⟨{ g with g_instance := e2.new_instance }, some Thread.T2, pc1, (.assign (e2.createDevice adapter)), (calls ++ (([Call.InstanceCreate e2.new_instance] ++
          (if g.g_instance ≠ 0 then [Call.InstanceDestroy g.g_instance] else []) ++
          [Call.EnumerateAdapters e2.new_instance] ++ [Call.AdapterCreateDevice adapter.handle])))⟩ := by
      simp only [sched_step, init_step, hads]
    have hcnt : List.countP Call.is_create_device (calls ++ (([Call.InstanceCreate e2.new_instance] ++
          (if g.g_instance ≠ 0 then [Call.InstanceDestroy g.g_instance] else []) ++
          [Call.EnumerateAdapters e2.new_instance] ++ [Call.AdapterCreateDevice adapter.handle]))) = 1 := by
      rw [List.countP_append, List.countP_append, android_create_prefix_count, hzero]
      rfl
    rw [hw]
    cases pc1 <;> simp [inside] at hout <;>
    constructor <;> dsimp only <;> (try rw [hcnt]) <;> (try simp_all [inside, pending]) <;>
      (try omega) <;>
      (try (intro r hr; rcases hr with h | h <;> subst h <;> simp_all [inside, pending]))

theorem android_step_t2_assign (e1 e2 : InitEnv) (g : State) (mutex : Option Thread)
    (pc1 : InitPc) (calls : List Call) (c : Ptr)
    (h : MutexInv ⟨g, mutex, pc1, (.assign c), calls⟩) :
    MutexInv (sched_step e1 e2 ⟨g, mutex, pc1, (.assign c), calls⟩ Thread.T2) := by
  obtain ⟨hm, hout⟩ := android_inside_holds2 h rfl
  dsimp only at hm hout
  subst hm
  obtain ⟨free, held1, held2, create_dev, assign_dev, finish_dev, ret, count_le,
    count_one⟩ := h
  dsimp only at *
  clear free held1 held2
  have hdev : g.g_device = 0 := assign_dev c (Or.inr rfl)
  have hw : sched_step e1 e2 ⟨g, some Thread.T2, pc1, (.assign c), calls⟩ Thread.T2 =
      ⟨{ g with g_device := c }, some Thread.T2, pc1, .get_queue, calls⟩ := by
    simp only [sched_step, init_step, List.append_nil]
  rw [hw]
  cases pc1 <;> simp [inside] at hout <;>
  constructor <;> dsimp only <;> (try simp_all [inside, pending]) <;>
    (try omega) <;>
    (try (intro r hr; rcases hr with h | h <;> subst h <;> simp_all [inside, pending]))

theorem android_step_t2_get_queue (e1 e2 : InitEnv) (g : State) (mutex : Option Thread)
    (pc1 : InitPc) (calls : List Call)
    (h : MutexInv ⟨g, mutex, pc1, .get_queue, calls⟩) :
    MutexInv (sched_step e1 e2 ⟨g, mutex, pc1, .get_queue, calls⟩ Thread.T2) := by
  obtain ⟨hm, hout⟩ := android_inside_holds2 h rfl
  dsimp only at hm hout
  subst hm
  obtain ⟨free, held1, held2, create_dev, assign_dev, finish_dev, ret, count_le,
    count_one⟩ := h
  dsimp only at *
  clear free held1 held2
  by_cases hd : g.g_device = 0
  · have hw : sched_step e1 e2 ⟨g, some Thread.T2, pc1, .get_queue, calls⟩ Thread.T2 =
        ⟨g, some Thread.T2, pc1, .faulted, calls⟩ := by
      simp only [sched_step, init_step, hd, if_true, List.append_nil]
    rw [hw]
    cases pc1 <;> simp [inside] at hout <;>
    constructor <;> dsimp only <;> (try simp_all [inside, pending]) <;>
      (try omega) <;>
      (try (intro r hr; rcases hr with h | h <;> subst h <;> simp_all [inside, pending]))
  · have hw : sched_step e1 e2 ⟨g, some Thread.T2, pc1, .get_queue, calls⟩ Thread.T2 =
        ⟨{ g with g_queue := e2.queue }, some Thread.T2, pc1, .finish, (calls ++ [Call.DeviceGetQueue g.g_device])⟩ := by
      simp only [sched_step, init_step, hd, if_false]
    have hcnt : List.countP Call.is_create_device (calls ++ [Call.DeviceGetQueue g.g_device]) =
        List.countP Call.is_create_device calls := by
      rw [List.countP_append]; rfl
    rw [hw]
    cases pc1 <;> simp [inside] at hout <;>
    constructor <;> dsimp only <;> (try rw [hcnt]) <;> (try simp_all [inside, pending]) <;>
      (try omega) <;>
      (try (intro r hr; rcases hr with h | h <;> subst h <;> simp_all [inside, pending]))

theorem android_step_t2_finish (e1 e2 : InitEnv) (g : State) (mutex : Option Thread)
    (pc1 : InitPc) (calls : List Call)
    (h : MutexInv ⟨g, mutex, pc1, .finish, calls⟩) :
    MutexInv (sched_step e1 e2 ⟨g, mutex, pc1, .finish, calls⟩ Thread.T2) := by
  obtain ⟨hm, hout⟩ := android_inside_holds2 h rfl
  dsimp only at hm hout
  subst hm
  obtain ⟨free, held1, held2, create_dev, assign_dev, finish_dev, ret, count_le,
    count_one⟩ := h
  dsimp only at *
  clear free held1 held2
  have hdev : g.g_device ≠ 0 := finish_dev (Or.inr rfl)
  have hw : sched_step e1 e2 ⟨g, some Thread.T2, pc1, .finish, calls⟩ Thread.T2 =
      ⟨g, none, pc1, .returned g.g_device, calls⟩ := by
    simp only [sched_step, init_step, List.append_nil]
  rw [hw]
  cases pc1 <;> simp [inside] at hout <;>
  constructor <;> dsimp only <;> (try simp_all [inside, pending]) <;>
    (try omega) <;>
    (try (intro r hr; rcases hr with h | h <;> subst h <;> simp_all [inside, pending]))

theorem android_mutex_inv_step (e1 e2 : InitEnv) (w : World State Call) (t : Thread)
    (h : MutexInv w) : MutexInv (sched_step e1 e2 w t) := by
  obtain ⟨g, mutex, pc1, pc2, calls⟩ := w
  cases t with
  | T1 =>
    cases pc1 with
    | entry => exact android_step_t1_entry e1 e2 g mutex pc2 calls h
    | test_device => exact android_step_t1_test_device e1 e2 g mutex pc2 calls h
    | create => exact android_step_t1_create e1 e2 g mutex pc2 calls h
    | assign c => exact android_step_t1_assign e1 e2 g mutex pc2 calls c h
    | get_queue => exact android_step_t1_get_queue e1 e2 g mutex pc2 calls h
    | finish => exact android_step_t1_finish e1 e2 g mutex pc2 calls h
    | returned r0 =>
      have hw : sched_step e1 e2 ⟨g, mutex, (.returned r0), pc2, calls⟩ Thread.T1 =
          ⟨g, mutex, (.returned r0), pc2, calls⟩ := by
        simp only [sched_step, init_step, List.append_nil]
      rw [hw]; exact h
    | faulted =>
      have hw : sched_step e1 e2 ⟨g, mutex, .faulted, pc2, calls⟩ Thread.T1 =
          ⟨g, mutex, .faulted, pc2, calls⟩ := by
        simp only [sched_step, init_step, List.append_nil]
      rw [hw]; exact h
  | T2 =>
    cases pc2 with
    | entry => exact android_step_t2_entry e1 e2 g mutex pc1 calls h
    | test_device => exact android_step_t2_test_device e1 e2 g mutex pc1 calls h
    | create => exact android_step_t2_create e1 e2 g mutex pc1 calls h
    | assign c => exact android_step_t2_assign e1 e2 g mutex pc1 calls c h
    | get_queue => exact android_step_t2_get_queue e1 e2 g mutex pc1 calls h
    | finish => exact android_step_t2_finish e1 e2 g mutex pc1 calls h
    | returned r0 =>
      have hw : sched_step e1 e2 ⟨g, mutex, pc1, (.returned r0), calls⟩ Thread.T2 =
          ⟨g, mutex, pc1, (.returned r0), calls⟩ := by
        simp only [sched_step, init_step, List.append_nil]
      rw [hw]; exact h
    | faulted =>
      have hw : sched_step e1 e2 ⟨g, mutex, pc1, .faulted, calls⟩ Thread.T2 =
          ⟨g, mutex, pc1, .faulted, calls⟩ := by
        simp only [sched_step, init_step, List.append_nil]
      rw [hw]; exact h


theorem android_mutex_inv_run (e1 e2 : InitEnv) (schedule : List Thread)
    (w : World State Call) (h : MutexInv w) :
    MutexInv (schedule.foldl (sched_step e1 e2) w) := by
  induction schedule generalizing w with
  | nil => exact h
  | cons t rest ih => exact ih _ (android_mutex_inv_step e1 e2 w t h)

/-- On the window-surface platform the mutex does its work: whatever the schedule and the
answers of the environment, two calls of `webgpu_rend_init` entered without a device issue
at most one `CreateDevice`, and if both return a non-null handle it is the same handle, the
one the device global holds. -/
theorem android_concurrent_init_one_device (e1 e2 : InitEnv) (s : State)
    (hs : s.g_device = 0) (schedule : List Thread) :
    (run_schedule e1 e2 s schedule).calls.countP Call.is_create_device ≤ 1 ∧
    ∀ r1 r2 : Ptr, (run_schedule e1 e2 s schedule).pc1 = InitPc.returned r1 →
      (run_schedule e1 e2 s schedule).pc2 = InitPc.returned r2 → r1 ≠ 0 → r2 ≠ 0 →
      r1 = r2 ∧ r1 = (run_schedule e1 e2 s schedule).g.g_device := by
  have h := android_mutex_inv_run e1 e2 schedule _ (android_mutex_inv_initial s hs)
  refine ⟨h.count_le, ?_⟩
  intro r1 r2 h1 h2 hn1 hn2
  have e1r := (h.ret r1 (Or.inl h1)).resolve_left hn1
  have e2r := (h.ret r2 (Or.inr h2)).resolve_left hn2
  exact ⟨e1r.trans e2r.symm, e1r⟩

end Android

/-! ## Order of the calls of a disposal -/

namespace Android

/-- The calls of the destructor after the host call: the releases, in program order. -/
theorem android_destroy_shape (obj : AndroidTextureObject) :
    obj.destroy = Call.hostDisposeTexture obj.handle ::
      ((if obj.window ≠ 0 then [Call.ANativeWindow_release obj.window] else []) ++
       (if obj.working_view ≠ 0 then [Call.TextureViewRelease obj.working_view] else []) ++
       (if obj.working_texture ≠ 0 then [Call.TextureRelease obj.working_texture] else []) ++
       (if obj.surface ≠ 0 then [Call.SurfaceRelease obj.surface] else [])) := by
  unfold AndroidTextureObject.destroy
  simp only [List.singleton_append, List.cons_append, List.append_assoc, List.nil_append]

theorem android_dispose_texture_live {s : State} {t : Ptr} {obj : AndroidTextureObject}
    (h : StdMap.find s.g_textures t = some (some obj)) :
    webgpu_rend_dispose_texture s t =
      .ok ⟨{ s with g_textures := StdMap.erase s.g_textures t }, (), obj.destroy⟩ := by
  simp [webgpu_rend_dispose_texture, h, destroy_slot, destroy_unique_ptr]

end Android

namespace Windows

/-- The calls of the destructor after the host call: the releases, in program order. -/
theorem windows_destroy_shape (obj : GpuTextureObject) :
    obj.destroy = Call.UnregisterTexture obj.texture_registrar obj.texture_id ::
      ((if obj.default_view ≠ 0 then [Call.TextureViewRelease obj.default_view] else []) ++
       (if obj.webgpu_texture ≠ 0 then [Call.TextureRelease obj.webgpu_texture] else []) ++
       (if obj.shared_memory.ptr ≠ 0 then
          [Call.SharedTextureMemoryRelease obj.shared_memory.ptr] else []) ++
       (if obj.surface_descriptor ≠ 0 then
          [Call.SurfaceDescriptorDelete obj.surface_descriptor] else []) ++
       (if obj.texture_variant ≠ 0 then
          [Call.TextureVariantDelete obj.texture_variant] else []) ++
       (if obj.d3d_texture ≠ 0 then [Call.D3DTextureRelease obj.d3d_texture] else [])) := by
  unfold GpuTextureObject.destroy
  simp only [List.singleton_append, List.cons_append, List.append_assoc, List.nil_append]

theorem windows_dispose_texture_live {s : State} {t : Ptr} {obj : GpuTextureObject}
    (h : StdMap.find s.g_textures t = some (some obj)) :
    webgpu_rend_dispose_texture s t =
      .ok ⟨{ s with g_textures := StdMap.erase s.g_textures t }, (), obj.destroy⟩ := by
  simp [webgpu_rend_dispose_texture, h, destroy_slot, destroy_unique_ptr]

end Windows

/-- A call that stands first in a list and differs from `c` comes, in every way of cutting
the list at an occurrence of `c`, before that occurrence. -/
theorem head_precedes {κ : Type} (u c : κ) (rest pre post : List κ) (hne : c ≠ u)
    (hcut : u :: rest = pre ++ c :: post) : u ∈ pre := by
  cases pre with
  | nil =>
    simp only [List.nil_append, List.cons.injEq] at hcut
    exact absurd hcut.1.symm hne
  | cons p pre1 =>
    simp only [List.cons_append, List.cons.injEq] at hcut
    rw [← hcut.1]
    exact List.mem_cons_self _ _

namespace Android

/-- The releases the destructor issues after the host call. -/
theorem android_destroy_rest_release (obj : AndroidTextureObject) (c : Call)
    (hc : c ∈
      (if obj.window ≠ 0 then [Call.ANativeWindow_release obj.window] else []) ++
      (if obj.working_view ≠ 0 then [Call.TextureViewRelease obj.working_view] else []) ++
      (if obj.working_texture ≠ 0 then [Call.TextureRelease obj.working_texture] else []) ++
      (if obj.surface ≠ 0 then [Call.SurfaceRelease obj.surface] else [])) :
    Call.is_native_release c = true := by
  simp only [List.mem_append] at hc
  rcases hc with ((h | h) | h) | h <;> split at h <;>
    first
    | (rw [List.mem_singleton] at h; subst h; rfl)
    | exact absurd h (List.not_mem_nil _)

theorem android_release_not_unregistration (c : Call)
    (h : Call.is_native_release c = true) : Call.is_host_unregistration c = false := by
  cases c <;> first | rfl | cases h

end Android

namespace Windows

/-- The releases the destructor issues after the host call. -/
theorem windows_destroy_rest_release (obj : GpuTextureObject) (c : Call)
    (hc : c ∈
      (if obj.default_view ≠ 0 then [Call.TextureViewRelease obj.default_view] else []) ++
      (if obj.webgpu_texture ≠ 0 then [Call.TextureRelease obj.webgpu_texture] else []) ++
      (if obj.shared_memory.ptr ≠ 0 then
         [Call.SharedTextureMemoryRelease obj.shared_memory.ptr] else []) ++
      (if obj.surface_descriptor ≠ 0 then
         [Call.SurfaceDescriptorDelete obj.surface_descriptor] else []) ++
      (if obj.texture_variant ≠ 0 then
         [Call.TextureVariantDelete obj.texture_variant] else []) ++
      (if obj.d3d_texture ≠ 0 then [Call.D3DTextureRelease obj.d3d_texture] else [])) :
    Call.is_native_release c = true := by
  simp only [List.mem_append] at hc
  rcases hc with ((((h | h) | h) | h) | h) | h <;> split at h <;>
    first
    | (rw [List.mem_singleton] at h; subst h; rfl)
    | exact absurd h (List.not_mem_nil _)

theorem windows_release_not_unregistration (c : Call)
    (h : Call.is_native_release c = true) : Call.is_host_unregistration c = false := by
  cases c <;> first | rfl | cases h

end Windows

/-- C11. On both platforms, for a live handle, the calls `dispose_texture` issues start with
the host-side unregistration of that object (host `disposeTexture` of its host handle on the
window-surface platform, `UnregisterTexture` of its texture id on the shared-handle
platform); this is the only unregistration among them; every call after it is a release of
a native resource of the object, so the unregistration comes before every such release
wherever the sequence is cut at one; and each resource the object holds is released there
(native window, view, GPU texture, surface; view, GPU texture, shared-memory import, native
D3D11 texture). -/
theorem dispose_unregisters_before_releases
    (sa : Android.State) (ha : Ptr) (oa : Android.AndroidTextureObject)
    (sw : Windows.State) (hw : Ptr) (ow : Windows.GpuTextureObject)
    (hla : StdMap.find sa.g_textures ha = some (some oa))
    (hlw : StdMap.find sw.g_textures hw = some (some ow)) :
    (∃ (sa1 : Android.State) (rest : List Android.Call),
      Android.webgpu_rend_dispose_texture sa ha =
        .ok ⟨sa1, (), Android.Call.hostDisposeTexture oa.handle :: rest⟩ ∧
      List.countP Android.Call.is_host_unregistration
        (Android.Call.hostDisposeTexture oa.handle :: rest) = 1 ∧
      (∀ c ∈ rest, Android.Call.is_native_release c = true) ∧
      (∀ (pre post : List Android.Call) (c : Android.Call),
        Android.Call.hostDisposeTexture oa.handle :: rest = pre ++ c :: post →
        Android.Call.is_native_release c = true →
        Android.Call.hostDisposeTexture oa.handle ∈ pre) ∧
      (oa.window ≠ 0 → Android.Call.ANativeWindow_release oa.window ∈ rest) ∧
      (oa.working_view ≠ 0 → Android.Call.TextureViewRelease oa.working_view ∈ rest) ∧
      (oa.working_texture ≠ 0 → Android.Call.TextureRelease oa.working_texture ∈ rest) ∧
      (oa.surface ≠ 0 → Android.Call.SurfaceRelease oa.surface ∈ rest)) ∧
    (∃ (sw1 : Windows.State) (rest : List Windows.Call),
      Windows.webgpu_rend_dispose_texture sw hw =
        .ok ⟨sw1, (), Windows.Call.UnregisterTexture ow.texture_registrar ow.texture_id ::
          rest⟩ ∧
      List.countP Windows.Call.is_host_unregistration
        (Windows.Call.UnregisterTexture ow.texture_registrar ow.texture_id :: rest) = 1 ∧
      (∀ c ∈ rest, Windows.Call.is_native_release c = true) ∧
      (∀ (pre post : List Windows.Call) (c : Windows.Call),
        Windows.Call.UnregisterTexture ow.texture_registrar ow.texture_id :: rest =
          pre ++ c :: post →
        Windows.Call.is_native_release c = true →
        Windows.Call.UnregisterTexture ow.texture_registrar ow.texture_id ∈ pre) ∧
      (ow.default_view ≠ 0 → Windows.Call.TextureViewRelease ow.default_view ∈ rest) ∧
      (ow.webgpu_texture ≠ 0 → Windows.Call.TextureRelease ow.webgpu_texture ∈ rest) ∧
      (ow.shared_memory.ptr ≠ 0 →
        Windows.Call.SharedTextureMemoryRelease ow.shared_memory.ptr ∈ rest) ∧
      (ow.d3d_texture ≠ 0 → Windows.Call.D3DTextureRelease ow.d3d_texture ∈ rest)) := by
  constructor
  · have hrel := Android.android_destroy_rest_release oa
    refine ⟨{ sa with g_textures := StdMap.erase sa.g_textures ha }, _, ?_, ?_, hrel,
      ?_, ?_, ?_, ?_, ?_⟩
    · rw [Android.android_dispose_texture_live hla, Android.android_destroy_shape]
    · rw [List.countP_cons_of_pos _ _ rfl, Nat.add_left_eq_self, List.countP_eq_zero]
      intro c hc
      rw [Android.android_release_not_unregistration c (hrel c hc)]
      exact Bool.false_ne_true
    · intro pre post c hcut hc
      refine head_precedes _ c _ pre post ?_ hcut
      intro heq
      rw [heq] at hc
      cases hc
    · intro h; simp [h]
    · intro h; simp [h]
    · intro h; simp [h]
    · intro h; simp [h]
  · have hrel := Windows.windows_destroy_rest_release ow
    refine ⟨{ sw with g_textures := StdMap.erase sw.g_textures hw }, _, ?_, ?_, hrel,
      ?_, ?_, ?_, ?_, ?_⟩
    · rw [Windows.windows_dispose_texture_live hlw, Windows.windows_destroy_shape]
    · rw [List.countP_cons_of_pos _ _ rfl, Nat.add_left_eq_self, List.countP_eq_zero]
      intro c hc
      rw [Windows.windows_release_not_unregistration c (hrel c hc)]
      exact Bool.false_ne_true
    · intro pre post c hcut hc
      refine head_precedes _ c _ pre post ?_ hcut
      intro heq
      rw [heq] at hc
      cases hc
    · intro h; simp [h]
    · intro h; simp [h]
    · intro h; simp [h]
    · intro h; simp [h]

/-- C11 on the sample states: disposing handle 16384 issues, on the window-surface platform,
the host `disposeTexture` of host handle 1 and then the releases of window 400, view 700,
texture 600 and surface 500; on the shared-handle platform, `UnregisterTexture` of id 7 and
then the releases of view 700, texture 600, import 500, descriptor 400, variant 450 and
D3D11 texture 300. -/
theorem dispose_unregisters_before_releases_witness :
    StdMap.find Android.sample_state1.g_textures 16384 = some (some Android.sample_object) ∧
    StdMap.find Windows.sample_state1.g_textures 16384 = some (some Windows.sample_object) ∧
    Android.webgpu_rend_dispose_texture Android.sample_state1 16384 =
      .ok ⟨Android.sample_state0, (),
        [Android.Call.hostDisposeTexture 1, Android.Call.ANativeWindow_release 400,
         Android.Call.TextureViewRelease 700, Android.Call.TextureRelease 600,
         Android.Call.SurfaceRelease 500]⟩ ∧
    Windows.webgpu_rend_dispose_texture Windows.sample_state1 16384 =
      .ok ⟨Windows.sample_state0, (),
        [Windows.Call.UnregisterTexture 900 7, Windows.Call.TextureViewRelease 700,
         Windows.Call.TextureRelease 600, Windows.Call.SharedTextureMemoryRelease 500,
         Windows.Call.SurfaceDescriptorDelete 400, Windows.Call.TextureVariantDelete 450,
         Windows.Call.D3DTextureRelease 300]⟩ ∧
    (∃ (sa1 : Android.State) (rest : List Android.Call),
      Android.webgpu_rend_dispose_texture Android.sample_state1 16384 =
        .ok ⟨sa1, (), Android.Call.hostDisposeTexture 1 :: rest⟩ ∧
      List.countP Android.Call.is_host_unregistration
        (Android.Call.hostDisposeTexture 1 :: rest) = 1 ∧
      Android.Call.ANativeWindow_release 400 ∈ rest ∧
      Android.Call.SurfaceRelease 500 ∈ rest) ∧
    (∃ (sw1 : Windows.State) (rest : List Windows.Call),
      Windows.webgpu_rend_dispose_texture Windows.sample_state1 16384 =
        .ok ⟨sw1, (), Windows.Call.UnregisterTexture 900 7 :: rest⟩ ∧
      List.countP Windows.Call.is_host_unregistration
        (Windows.Call.UnregisterTexture 900 7 :: rest) = 1 ∧
      Windows.Call.SharedTextureMemoryRelease 500 ∈ rest ∧
      Windows.Call.D3DTextureRelease 300 ∈ rest) := by
  have key := dispose_unregisters_before_releases Android.sample_state1 16384
    Android.sample_object Windows.sample_state1 16384 Windows.sample_object rfl rfl
  refine ⟨rfl, rfl, rfl, rfl, ?_, ?_⟩
  · obtain ⟨sa1, rest, h1, h2, _, _, h5, _, _, h8⟩ := key.1
    exact ⟨sa1, rest, h1, h2, h5 (by decide), h8 (by decide)⟩
  · obtain ⟨sw1, rest, h1, h2, _, _, _, _, h7, h8⟩ := key.2
    exact ⟨sw1, rest, h1, h2, h7 (by decide), h8 (by decide)⟩

end WebgpuRend
